import Mathlib

/-!
Verification development for the PDF→SCORM conversion pipeline in
`pdf_to_scorm/test.py`.

The Python program is shallowly embedded:
* dictionaries parsed from the generation service's JSON are modelled as
  structures with `Option` fields (an absent key is `none`; direct `d['k']`
  subscription raises `KeyError`, modelled as `Except PyErr`);
* the generation-service call is modelled by a `GenBehavior` parameter:
  the service either raises (network failure), returns a body that
  `json.loads` rejects, or returns a parsed JSON object;
* the f-string templates of `build_enhanced_html` and
  `build_manifest_scorm12` are embedded literally, split at their
  interpolation points into the `…Seg…` string constants below;
* the client-side ProgressBridge (the JavaScript embedded by
  `build_enhanced_html`) is modelled as an explicit state machine
  (`BridgeState`, `bridgeStep`) reacting to sustained-visibility and
  quiz-submission events, with `Math.round((k/n)*100)` modelled as
  exact rational rounding half-up (`jsRound100`).
-/

/-- Python `str(bool)`: `True` / `False` (capitalised). -/
def pyStrBool (b : Bool) : String := if b then "True" else "False"

/-- Per-character translation of Python `html.escape` (with `quote=True`):
`&`, `<`, `>`, `"`, `'` are replaced by their entity forms. -/
def escapeChar (c : Char) : String :=
  if c = '&' then "&amp;"
  else if c = '<' then "&lt;"
  else if c = '>' then "&gt;"
  else if c = Char.ofNat 34 then "&quot;"
  else if c = Char.ofNat 39 then "&#x27;"
  else String.singleton c

/-- Python `html.escape(s)` (sequential global replacements starting with `&`,
equivalently a per-character map). -/
def htmlEscape (s : String) : String := String.join (s.data.map escapeChar)

/-- JavaScript `Math.round((k / n) * 100)` for natural `k`, `n` (rounding
half-up), as computed by `updateProgress` in the embedded script. -/
def jsRound100 (k n : Nat) : Nat := (200 * k + n) / (2 * n)

/-- Decimal digit list of a natural number; reference implementation for
`Nat.repr` (Python `str(i)`), used to reason about the positional
identifiers `section-{i}` / `quiz-{i}`. -/
def decDigits (n : Nat) : List Char :=
  if n < 10 then [Nat.digitChar n]
  else decDigits (n / 10) ++ [Nat.digitChar (n % 10)]
decreasing_by exact Nat.div_lt_self (by omega) (by omega)

/-- Value of a decimal digit string, used to invert `decDigits`. -/
def decValue (l : List Char) : Nat :=
  l.foldl (fun a c => 10 * a + (c.toNat - 48)) 0

/-- A Python exception escaping a function. -/
inductive PyErr where
  | keyError (key : String)
  | typeError (msg : String)
deriving DecidableEq

/-- `section` dictionaries inside the parsed JSON: `d['title']` and
`d['content']` are accessed by subscription in `build_enhanced_html`. -/
structure RawSection where
  title : Option String
  content : Option String
deriving DecidableEq

/-- quiz-item dictionaries inside the parsed JSON. -/
structure RawQuizItem where
  question : Option String
  options : Option (List String)
  correct : Option Int
  explanation : Option String
deriving DecidableEq

/-- activity dictionary inside the parsed JSON. -/
structure RawActivity where
  title : Option String
  description : Option String
deriving DecidableEq

/-- The dictionary returned by `json.loads` on the generation-service
response (and by `enhance_content_with_ai`). Every key may be absent. -/
structure RawContent where
  introduction : Option String
  learning_objectives : Option (List String)
  sections : Option (List RawSection)
  quiz : Option (List RawQuizItem)
  activity : Option RawActivity
  summary : Option String
deriving DecidableEq

/-- The fallback dictionary constructed in the `except` branch of
`enhance_content_with_ai` (test.py lines 96‑103). -/
def fallbackContent (raw_text title : String) : RawContent where
  introduction := some ("Welcome to " ++ title ++ ". This lesson will help you understand key concepts and develop practical skills.")
  learning_objectives := some ["Understand core concepts", "Apply knowledge practically", "Demonstrate mastery"]
  sections := some [{ title := some "Content", content := some raw_text }]
  quiz := some []
  activity := some { title := some "Practice Exercise", description := some "Apply what you\x27ve learned in a practical exercise." }
  summary := some "Review the key concepts covered in this lesson and practice applying them."

/-- Behaviour of the generation service as observed by
`enhance_content_with_ai`: the request raises (network/service failure),
`json.loads` raises (non-JSON body), or parsing yields a JSON object. -/
inductive GenBehavior where
  | serviceFailure
  | invalidJson
  | jsonObject (parsed : RawContent)
deriving DecidableEq

/-- `enhance_content_with_ai(raw_text, title)` (test.py lines 42‑103): the
whole body is wrapped in `try`/`except Exception`, so a raised request or
parse exception is caught and replaced by the fallback dictionary, while a
successfully parsed JSON object is returned unchanged (no validation). -/
def enhance_content_with_ai (behavior : GenBehavior) (raw_text title : String) :
    Except PyErr RawContent :=
  match behavior with
  | .jsonObject parsed => .ok parsed
  | .serviceFailure => .ok (fallbackContent raw_text title)
  | .invalidJson => .ok (fallbackContent raw_text title)

/-- Modelled from the spec: the §3 `LearningModule` invariants on a parsed
content dictionary (every field present; `sections` non-empty with `title`
and `body` present; every quiz item has `question`, `explanation`, at least
two `options` and `0 ≤ correctIndex < len(options)`). The code contains no
such validation step; this definition only formalises the spec's §3. -/
def rawQuizItemValid (q : RawQuizItem) : Bool :=
  q.question.isSome && q.explanation.isSome &&
  (match q.options, q.correct with
   | some opts, some corr =>
     decide (2 ≤ opts.length) && decide (0 ≤ corr) && decide (corr < (opts.length : Int))
   | _, _ => false)

/-- Modelled from the spec: §3 invariants of a whole content dictionary
(see `rawQuizItemValid`). -/
def rawContentValid (c : RawContent) : Bool :=
  c.introduction.isSome && c.learning_objectives.isSome && c.summary.isSome &&
  (match c.sections with
   | some l => !l.isEmpty && l.all (fun s => s.title.isSome && s.content.isSome)
   | none => false) &&
  (match c.quiz with
   | some l => l.all rawQuizItemValid
   | none => false)
def sectionSeg0 : String := "\n        <section class=\"content-section\" id=\"section-"
def sectionSeg1 : String := "\">\n            <h2>"
def sectionSeg2 : String := "</h2>\n            <div class=\"section-content\">\n                "
def sectionSeg3 : String := "\n            </div>\n        </section>\n        "
def optionSeg0 : String := "\n            <label class=\"quiz-option\">\n                <input type=\"radio\" name=\"quiz-"
def optionSeg1 : String := "\" value=\""
def optionSeg2 : String := "\" data-correct=\""
def optionSeg3 : String := "\">\n                <span>"
def optionSeg4 : String := "</span>\n            </label>\n            "
def quizItemSeg0 : String := "\n        <div class=\"quiz-question\" data-quiz=\""
def quizItemSeg1 : String := "\">\n            <h3>"
def quizItemSeg2 : String := "</h3>\n            <div class=\"quiz-options\">\n                "
def quizItemSeg3 : String := "\n            </div>\n            <button type=\"button\" class=\"btn quiz-submit\" onclick=\"checkAnswer("
def quizItemSeg4 : String := ")\">Submit Answer</button>\n            <div class=\"quiz-feedback\" style=\"display: none;\">\n                <p class=\"explanation\">"
def quizItemSeg5 : String := "</p>\n            </div>\n        </div>\n        "
def scormJsSeg0 : String := "\n    ;(function()\x7b\n      // Enhanced SCORM 1.2 API adapter with progress tracking\n      var API = null;\n      var progress = 0;\n      var totalSections = "
def scormJsSeg1 : String := ";\n      var completedSections = new Set();\n      \n      function findAPI(win) \x7b\n        var n = 0;\n        while (win && !win.API && win.parent && win.parent !== win && n < 500) \x7b\n          n++; win = win.parent;\n        \x7d\n        return win.API || null;\n      \x7d\n      \n      function updateProgress() \x7b\n        progress = Math.round((completedSections.size / totalSections) * 100);\n        document.querySelector(\x27.progress-fill\x27).style.width = progress + \x27%\x27;\n        document.querySelector(\x27.progress-text\x27).textContent = progress + \x27% Complete\x27;\n        \n        if (API) \x7b\n          try \x7b\n            API.LMSSetValue(\"cmi.core.score.raw\", progress.toString());\n            API.LMSSetValue(\"cmi.core.lesson_status\", progress === 100 ? \"completed\" : \"incomplete\");\n            API.LMSCommit(\"\");\n          \x7d catch(e)\x7b\x7d\n        \x7d\n      \x7d\n      \n      function markSectionComplete(sectionId) \x7b\n        completedSections.add(sectionId);\n        updateProgress();\n      \x7d\n      \n      function init() \x7b\n        try \x7b\n          API = findAPI(window) || (window.opener && findAPI(window.opener)) || null;\n          if (API) \x7b\n            try \x7b API.LMSInitialize(\"\"); \x7d catch(e)\x7b\x7d\n            updateProgress();\n          \x7d\n          \n          // Section intersection observer for auto-completion\n          const observer = new IntersectionObserver((entries) => \x7b\n            entries.forEach(entry => \x7b\n              if (entry.isIntersecting && entry.intersectionRatio > 0.8) \x7b\n                setTimeout(() => markSectionComplete(entry.target.id), 2000);\n              \x7d\n            \x7d);\n          \x7d, \x7b threshold: 0.8 \x7d);\n          \n          document.querySelectorAll(\x27.content-section\x27).forEach(section => \x7b\n            observer.observe(section);\n          \x7d);\n          \n          // Handle unload\n          window.addEventListener(\"beforeunload\", function()\x7b\n            try \x7b API && API.LMSFinish(\"\"); \x7d catch(e)\x7b\x7d\n          \x7d);\n        \x7d catch(e)\x7b\x7d\n      \x7d\n      \n      // Quiz functionality\n      window.checkAnswer = function(quizIndex) \x7b\n        const question = document.querySelector(\x60[data-quiz=\"$\x7bquizIndex\x7d\"]\x60);\n        const selected = question.querySelector(\x27input[name=\"quiz-\x27 + quizIndex + \x27\"]:checked\x27);\n        const feedback = question.querySelector(\x27.quiz-feedback\x27);\n        const submit = question.querySelector(\x27.quiz-submit\x27);\n        \n        if (!selected) \x7b\n          alert(\x27Please select an answer\x27);\n          return;\n        \x7d\n        \n        const isCorrect = selected.dataset.correct === \x27true\x27;\n        feedback.style.display = \x27block\x27;\n        feedback.className = \x27quiz-feedback \x27 + (isCorrect ? \x27correct\x27 : \x27incorrect\x27);\n        submit.disabled = true;\n        submit.textContent = isCorrect ? \x27Correct!\x27 : \x27Try Again\x27;\n        \n        if (isCorrect) \x7b\n          markSectionComplete(\x27quiz-\x27 + quizIndex);\n        \x7d\n      \x7d;\n      \n      if (document.readyState === \"complete\" || document.readyState === \"interactive\") \x7b\n        setTimeout(init, 0);\n      \x7d else \x7b\n        document.addEventListener(\"DOMContentLoaded\", init);\n      \x7d\n    \x7d)();\n    "
def docSeg0 : String := "<!doctype html>\n<html lang=\"en\">\n<head>\n  <meta charset=\"utf-8\" />\n  <title>"
def docSeg1 : String := "</title>\n  <meta name=\"viewport\" content=\"width=device-width, initial-scale=1\" />\n  <style>\n    :root \x7b\n      --primary: #4f46e5;\n      --primary-light: #6366f1;\n      --secondary: #10b981;\n      --danger: #ef4444;\n      --warning: #f59e0b;\n      --bg: #ffffff;\n      --fg: #1f2937;\n      --muted: #6b7280;\n      --border: #e5e7eb;\n      --card: #f9fafb;\n      --shadow: 0 1px 3px 0 rgb(0 0 0 / 0.1), 0 1px 2px -1px rgb(0 0 0 / 0.1);\n      --shadow-lg: 0 10px 15px -3px rgb(0 0 0 / 0.1), 0 4px 6px -4px rgb(0 0 0 / 0.1);\n    \x7d\n    \n    * \x7b box-sizing: border-box; \x7d\n    html, body \x7b height: 100%; margin: 0; \x7d\n    \n    body \x7b\n      font-family: -apple-system, BlinkMacSystemFont, \x27Segoe UI\x27, Roboto, \x27Helvetica Neue\x27, Arial, sans-serif;\n      line-height: 1.6;\n      color: var(--fg);\n      background: linear-gradient(135deg, #667eea 0%, #764ba2 100%);\n      min-height: 100vh;\n    \x7d\n    \n    .container \x7b\n      max-width: 900px;\n      margin: 0 auto;\n      background: var(--bg);\n      min-height: 100vh;\n      box-shadow: var(--shadow-lg);\n    \x7d\n    \n    header \x7b\n      background: linear-gradient(135deg, var(--primary) 0%, var(--primary-light) 100%);\n      color: white;\n      padding: 2rem;\n      text-align: center;\n      position: relative;\n      overflow: hidden;\n    \x7d\n    \n    header::before \x7b\n      content: \x27\x27;\n      position: absolute;\n      top: 0;\n      left: 0;\n      right: 0;\n      bottom: 0;\n      background: url(\x27data:image/svg+xml,<svg xmlns=\"http://www.w3.org/2000/svg\" viewBox=\"0 0 100 100\"><defs><pattern id=\"grid\" width=\"10\" height=\"10\" patternUnits=\"userSpaceOnUse\"><path d=\"M 10 0 L 0 0 0 10\" fill=\"none\" stroke=\"rgba(255,255,255,0.1)\" stroke-width=\"0.5\"/></pattern></defs><rect width=\"100\" height=\"100\" fill=\"url(%23grid)\"/></svg>\x27);\n      opacity: 0.3;\n    \x7d\n    \n    header h1 \x7b\n      margin: 0;\n      font-size: 2.5rem;\n      font-weight: 700;\n      position: relative;\n      z-index: 1;\n    \x7d\n    \n    header .subtitle \x7b\n      margin: 0.5rem 0 0 0;\n      font-size: 1.1rem;\n      opacity: 0.9;\n      position: relative;\n      z-index: 1;\n    \x7d\n    \n    .progress-container \x7b\n      background: var(--card);\n      padding: 1rem 2rem;\n      border-bottom: 1px solid var(--border);\n    \x7d\n    \n    .progress-bar \x7b\n      background: #e5e7eb;\n      height: 8px;\n      border-radius: 4px;\n      overflow: hidden;\n      margin-bottom: 0.5rem;\n    \x7d\n    \n    .progress-fill \x7b\n      background: linear-gradient(90deg, var(--secondary), var(--primary));\n      height: 100%;\n      width: 0%;\n      transition: width 0.3s ease;\n      border-radius: 4px;\n    \x7d\n    \n    .progress-text \x7b\n      font-size: 0.875rem;\n      color: var(--muted);\n      text-align: center;\n    \x7d\n    \n    main \x7b\n      padding: 2rem;\n    \x7d\n    \n    .intro-section \x7b\n      background: var(--card);\n      padding: 2rem;\n      border-radius: 12px;\n      margin-bottom: 2rem;\n      border-left: 4px solid var(--primary);\n    \x7d\n    \n    .intro-section h2 \x7b\n      margin-top: 0;\n      color: var(--primary);\n    \x7d\n    \n    .objectives \x7b\n      background: linear-gradient(135deg, #fef3c7 0%, #fde68a 100%);\n      padding: 1.5rem;\n      border-radius: 12px;\n      margin-bottom: 2rem;\n    \x7d\n    \n    .objectives h3 \x7b\n      margin-top: 0;\n      color: #92400e;\n    \x7d\n    \n    .objectives ul \x7b\n      margin: 0;\n      padding-left: 1.5rem;\n    \x7d\n    \n    .objectives li \x7b\n      margin-bottom: 0.5rem;\n      color: #a16207;\n    \x7d\n    \n    .content-section \x7b\n      background: var(--bg);\n      border: 1px solid var(--border);\n      border-radius: 12px;\n      padding: 2rem;\n      margin-bottom: 2rem;\n      box-shadow: var(--shadow);\n    \x7d\n    \n    .content-section h2 \x7b\n      margin-top: 0;\n      color: var(--primary);\n      font-size: 1.5rem;\n      border-bottom: 2px solid var(--border);\n      padding-bottom: 0.5rem;\n    \x7d\n    \n    .section-content \x7b\n      font-size: 1.1rem;\n      line-height: 1.7;\n    \x7d\n    \n    .quiz-section \x7b\n      background: linear-gradient(135deg, #e0f2fe 0%, #b3e5fc 100%);\n      padding: 2rem;\n      border-radius: 12px;\n      margin: 2rem 0;\n    \x7d\n    \n    .quiz-question \x7b\n      background: white;\n      padding: 1.5rem;\n      border-radius: 8px;\n      margin-bottom: 1rem;\n      box-shadow: var(--shadow);\n    \x7d\n    \n    .quiz-question h3 \x7b\n      margin-top: 0;\n      color: var(--fg);\n    \x7d\n    \n    .quiz-options \x7b\n      margin: 1rem 0;\n    \x7d\n    \n    .quiz-option \x7b\n      display: block;\n      padding: 0.75rem;\n      margin-bottom: 0.5rem;\n      background: var(--card);\n      border-radius: 6px;\n      cursor: pointer;\n      transition: all 0.2s ease;\n      border: 2px solid transparent;\n    \x7d\n    \n    .quiz-option:hover \x7b\n      background: #f3f4f6;\n      border-color: var(--primary);\n    \x7d\n    \n    .quiz-option input \x7b\n      margin-right: 0.75rem;\n    \x7d\n    \n    .btn \x7b\n      background: var(--primary);\n      color: white;\n      border: none;\n      padding: 0.75rem 1.5rem;\n      border-radius: 6px;\n      cursor: pointer;\n      font-size: 1rem;\n      transition: all 0.2s ease;\n    \x7d\n    \n    .btn:hover \x7b\n      background: var(--primary-light);\n      transform: translateY(-1px);\n    \x7d\n    \n    .btn:disabled \x7b\n      background: var(--muted);\n      cursor: not-allowed;\n      transform: none;\n    \x7d\n    \n    .quiz-feedback \x7b\n      margin-top: 1rem;\n      padding: 1rem;\n      border-radius: 6px;\n    \x7d\n    \n    .quiz-feedback.correct \x7b\n      background: #d1fae5;\n      border: 1px solid #10b981;\n      color: #065f46;\n    \x7d\n    \n    .quiz-feedback.incorrect \x7b\n      background: #fee2e2;\n      border: 1px solid #ef4444;\n      color: #991b1b;\n    \x7d\n    \n    .activity-section \x7b\n      background: linear-gradient(135deg, #f3e8ff 0%, #e9d5ff 100%);\n      padding: 2rem;\n      border-radius: 12px;\n      margin: 2rem 0;\n    \x7d\n    \n    .activity-section h3 \x7b\n      margin-top: 0;\n      color: #7c3aed;\n    \x7d\n    \n    .summary-section \x7b\n      background: linear-gradient(135deg, #ecfdf5 0%, #d1fae5 100%);\n      padding: 2rem;\n      border-radius: 12px;\n      margin: 2rem 0;\n      text-align: center;\n    \x7d\n    \n    .summary-section h3 \x7b\n      margin-top: 0;\n      color: #065f46;\n    \x7d\n    \n    @media (prefers-color-scheme: dark) \x7b\n      :root \x7b\n        --bg: #111827;\n        --fg: #f9fafb;\n        --muted: #9ca3af;\n        --border: #374151;\n        --card: #1f2937;\n      \x7d\n    \x7d\n    \n    @media (max-width: 768px) \x7b\n      header \x7b\n        padding: 1.5rem;\n      \x7d\n      \n      header h1 \x7b\n        font-size: 2rem;\n      \x7d\n      \n      main \x7b\n        padding: 1rem;\n      \x7d\n      \n      .content-section, .intro-section \x7b\n        padding: 1.5rem;\n      \x7d\n    \x7d\n  </style>\n</head>\n<body>\n  <div class=\"container\">\n    <header>\n      <h1>"
def docSeg2 : String := "</h1>\n      <p class=\"subtitle\">Enhanced with AI \u201a\u00c4\u00a2 Interactive Learning Experience</p>\n    </header>\n    \n    <div class=\"progress-container\">\n      <div class=\"progress-bar\">\n        <div class=\"progress-fill\"></div>\n      </div>\n      <div class=\"progress-text\">0% Complete</div>\n    </div>\n    \n    <main>\n      <div class=\"intro-section\">\n        <h2>Welcome to Your Learning Journey</h2>\n        <p>"
def docSeg3 : String := "</p>\n      </div>\n      \n      <div class=\"objectives\">\n        <h3>\uf8ff\u00fc\u00e9\u00d8 Learning Objectives</h3>\n        <ul>\n          "
def docSeg4 : String := "\n        </ul>\n      </div>\n      \n      "
def docSeg5 : String := "\n      \n      "
def docSeg6 : String := "\n      \n      "
def docSeg7 : String := "\n      \n      <div class=\"summary-section\">\n        <h3>\u201a\u00fa\u00ae Summary & Next Steps</h3>\n        <p>"
def docSeg8 : String := "</p>\n      </div>\n    </main>\n  </div>\n  \n  <script>\n  "
def docSeg9 : String := "\n  </script>\n</body>\n</html>\n"
def quizSectionSeg0 : String := "\n      <div class=\"quiz-section\">\n        <h3>\uf8ff\u00fc\u00df\u2020 Knowledge Check</h3>\n        "
def quizSectionSeg1 : String := "\n      </div>\n      "
def activitySeg0 : String := "\n      <div class=\"activity-section\">\n        <h3>\uf8ff\u00fc\u00f6\u00c4 "
def activitySeg1 : String := "</h3>\n        <p>"
def activitySeg2 : String := "</p>\n      </div>\n      "
def manifestSeg0 : String := "<?xml version=\"1.0\" encoding=\"UTF-8\"?>\n<manifest identifier=\""
def manifestSeg1 : String := "\" version=\"1.0\"\n  xmlns=\"http://www.imsproject.org/xsd/imscp_rootv1p1p2\"\n  xmlns:adlcp=\"http://www.adlnet.org/xsd/adlcp_rootv1p2\"\n  xmlns:xsi=\"http://www.w3.org/2001/XMLSchema-instance\"\n  xsi:schemaLocation=\"http://www.imsproject.org/xsd/imscp_rootv1p1p2 ims_xml.xsd\n                      http://www.imsglobal.org/xsd/imsmd_rootv1p2p1 imsmd_rootv1p2p1.xsd\n                      http://www.adlnet.org/xsd/adlcp_rootv1p2 adlcp_rootv1p2.xsd\">\n  <organizations default=\""
def manifestSeg2 : String := "\">\n    <organization identifier=\""
def manifestSeg3 : String := "\" structure=\"hierarchical\">\n      <title>"
def manifestSeg4 : String := "</title>\n      <item identifier=\"ITEM-"
def manifestSeg5 : String := "\" identifierref=\""
def manifestSeg6 : String := "\" isvisible=\"true\">\n        <title>"
def manifestSeg7 : String := "</title>\n      </item>\n    </organization>\n  </organizations>\n  <resources>\n    <resource identifier=\""
def manifestSeg8 : String := "\" type=\"webcontent\" adlcp:scormtype=\"sco\" href=\""
def manifestSeg9 : String := "\">\n      <file href=\""
def manifestSeg10 : String := "\"/>\n    </resource>\n  </resources>\n</manifest>\n"

/-- `KeyError`-raising dictionary subscription `d['key']`. -/
def requireKey {α : Type} (v : Option α) (key : String) : Except PyErr α :=
  match v with
  | some a => .ok a
  | none => .error (.keyError key)

/-- One iteration of the sections loop of `build_enhanced_html`
(test.py lines 110‑118): the block markup for section index `i`. -/
def sectionBlock (i : Nat) (title content : String) : String :=
  sectionSeg0 ++ Nat.repr i ++ sectionSeg1 ++ htmlEscape title ++ sectionSeg2 ++
    String.replace (htmlEscape content) "\n" "<br>" ++ sectionSeg3

/-- The sections loop of `build_enhanced_html`: accumulates blocks in order,
raising `KeyError` on a section dictionary missing `title` or `content`. -/
def sectionsHtmlAux (i : Nat) : List RawSection → Except PyErr String
  | [] => .ok ""
  | s :: rest => do
    let t ← requireKey s.title "title"
    let c ← requireKey s.content "content"
    let r ← sectionsHtmlAux (i + 1) rest
    pure (sectionBlock i t c ++ r)

/-- The learning-objectives loop of `build_enhanced_html`
(test.py lines 121‑123). -/
def objectivesHtmlStr : List String → String
  | [] => ""
  | o :: rest => "<li>" ++ htmlEscape o ++ "</li>" ++ objectivesHtmlStr rest

/-- The string interpolated for `data-correct` on the option row at index
`j` of a quiz item with correct index `correct`: Python evaluates
`str(j == quiz_item['correct'])`, giving `"True"` or `"False"`. -/
def datasetCorrectValue (correct : Int) (j : Nat) : String :=
  pyStrBool (decide ((j : Int) = correct))

/-- One iteration of the options loop of `build_enhanced_html`
(test.py lines 129‑135): the option row markup. -/
def optionRow (i j : Nat) (option : String) (correct : Int) : String :=
  optionSeg0 ++ Nat.repr i ++ optionSeg1 ++ Nat.repr j ++ optionSeg2 ++
    datasetCorrectValue correct j ++ optionSeg3 ++ htmlEscape option ++ optionSeg4

/-- The options loop of `build_enhanced_html`: each iteration subscripts
`quiz_item['correct']` (so `correct` is only required when at least one
option exists). -/
def optionsHtmlAux (i : Nat) (q : RawQuizItem) (j : Nat) :
    List String → Except PyErr String
  | [] => .ok ""
  | o :: rest => do
    let correct ← requireKey q.correct "correct"
    let r ← optionsHtmlAux i q (j + 1) rest
    pure (optionRow i j o correct ++ r)

/-- The quiz-question block markup for quiz index `i`
(test.py lines 137‑148). -/
def quizBlock (i : Nat) (question options_html explanation : String) : String :=
  quizItemSeg0 ++ Nat.repr i ++ quizItemSeg1 ++ htmlEscape question ++ quizItemSeg2 ++
    options_html ++ quizItemSeg3 ++ Nat.repr i ++ quizItemSeg4 ++
    htmlEscape explanation ++ quizItemSeg5

/-- The quiz loop of `build_enhanced_html` (test.py lines 127‑148):
`quiz_item['options']` and `quiz_item['question']` are subscripted,
`quiz_item.get('explanation', '')` defaults to the empty string. -/
def quizHtmlAux (i : Nat) : List RawQuizItem → Except PyErr String
  | [] => .ok ""
  | q :: rest => do
    let opts ← requireKey q.options "options"
    let options_html ← optionsHtmlAux i q 0 opts
    let question ← requireKey q.question "question"
    let r ← quizHtmlAux (i + 1) rest
    pure (quizBlock i question options_html (q.explanation.getD "") ++ r)

/-- The embedded SCORM adapter script (test.py lines 151‑243):
two literal JavaScript chunks around `str(len(sections))`. -/
def scormJsStr (totalSections : Nat) : String :=
  scormJsSeg0 ++ Nat.repr totalSections ++ scormJsSeg1

/-- Python truthiness of `enhanced_content.get('quiz')`: present and
non-empty. -/
def quizTruthy (c : RawContent) : Bool :=
  match c.quiz with
  | some l => !l.isEmpty
  | none => false

/-- Python truthiness of `enhanced_content.get('activity')`: present and a
non-empty dictionary. -/
def activityTruthy (c : RawContent) : Bool :=
  match c.activity with
  | some a => a.title.isSome || a.description.isSome
  | none => false

/-- The activity block of the main template, with the
`.get('activity', {}).get('title', 'Practice Activity')` and
`.get('description', '')` defaults of the source. -/
def activityBlockStr (c : RawContent) : String :=
  activitySeg0 ++ htmlEscape ((c.activity.getD { title := none, description := none }).title.getD "Practice Activity") ++
    activitySeg1 ++ htmlEscape ((c.activity.getD { title := none, description := none }).description.getD "") ++
    activitySeg2

/-- `build_enhanced_html(enhanced_content, title)` (test.py lines 105‑606):
sections, objectives, quiz and script parts are built in source order
(propagating any `KeyError`), then interpolated into the main template.
The two conditional template slots reproduce the source's
`if enhanced_content.get('quiz')` / `.get('activity')` truthiness tests. -/
def build_enhanced_html (enhanced_content : RawContent) (title : String) :
    Except PyErr String := do
  let sections_html ← sectionsHtmlAux 0 (enhanced_content.sections.getD [])
  let objectives_html := objectivesHtmlStr (enhanced_content.learning_objectives.getD [])
  let quiz_html ← quizHtmlAux 0 (enhanced_content.quiz.getD [])
  let scorm_js := scormJsStr (enhanced_content.sections.getD []).length
  pure (String.join [docSeg0, htmlEscape title, docSeg1, htmlEscape title, docSeg2,
    htmlEscape (enhanced_content.introduction.getD ""), docSeg3, objectives_html, docSeg4,
    sections_html, docSeg5,
    (if quizTruthy enhanced_content then quizSectionSeg0 ++ quiz_html ++ quizSectionSeg1 else ""),
    docSeg6,
    (if activityTruthy enhanced_content then activityBlockStr enhanced_content else ""),
    docSeg7, htmlEscape (enhanced_content.summary.getD ""), docSeg8, scorm_js, docSeg9])

/-- A fully-populated section (spec §3 sections entry). -/
structure LMSection where
  title : String
  content : String
deriving DecidableEq

/-- A fully-populated quiz item (spec §3 `QuizItem`). -/
structure LMQuizItem where
  question : String
  options : List String
  correct : Int
  explanation : String
deriving DecidableEq

/-- A fully-populated activity. -/
structure LMActivity where
  title : String
  description : String
deriving DecidableEq

/-- A fully-populated `LearningModule` (spec §3): the well-formed subset of
content dictionaries, used to state rendering properties. -/
structure LearningModule where
  introduction : String
  learning_objectives : List String
  sections : List LMSection
  quiz : List LMQuizItem
  activity : Option LMActivity
  summary : String
deriving DecidableEq

def LMSection.toRaw (s : LMSection) : RawSection :=
  { title := some s.title, content := some s.content }

def LMQuizItem.toRaw (q : LMQuizItem) : RawQuizItem :=
  { question := some q.question, options := some q.options,
    correct := some q.correct, explanation := some q.explanation }

def LMActivity.toRaw (a : LMActivity) : RawActivity :=
  { title := some a.title, description := some a.description }

/-- The content dictionary of a fully-populated module. -/
def LearningModule.toRaw (m : LearningModule) : RawContent :=
  { introduction := some m.introduction,
    learning_objectives := some m.learning_objectives,
    sections := some (m.sections.map LMSection.toRaw),
    quiz := some (m.quiz.map LMQuizItem.toRaw),
    activity := m.activity.map LMActivity.toRaw,
    summary := some m.summary }

/-- Exception-free form of the sections loop on fully-populated sections. -/
def sectionsHtmlLM (i : Nat) : List LMSection → String
  | [] => ""
  | s :: rest => sectionBlock i s.title s.content ++ sectionsHtmlLM (i + 1) rest

/-- Exception-free form of the options loop. -/
def optionsHtmlLM (i : Nat) (correct : Int) (j : Nat) : List String → String
  | [] => ""
  | o :: rest => optionRow i j o correct ++ optionsHtmlLM i correct (j + 1) rest

/-- Exception-free form of the quiz loop on fully-populated quiz items. -/
def quizHtmlLM (i : Nat) : List LMQuizItem → String
  | [] => ""
  | q :: rest =>
    quizBlock i q.question (optionsHtmlLM i q.correct 0 q.options) q.explanation ++
      quizHtmlLM (i + 1) rest

/-- The document `build_enhanced_html` renders for a fully-populated module
(proved to agree with `build_enhanced_html` on `LearningModule.toRaw`). -/
def renderLM (m : LearningModule) (title : String) : String :=
  String.join [docSeg0, htmlEscape title, docSeg1, htmlEscape title, docSeg2,
    htmlEscape m.introduction, docSeg3, objectivesHtmlStr m.learning_objectives, docSeg4,
    sectionsHtmlLM 0 m.sections, docSeg5,
    (if m.quiz.isEmpty then "" else quizSectionSeg0 ++ quizHtmlLM 0 m.quiz ++ quizSectionSeg1),
    docSeg6,
    (match m.activity with
     | some a => activitySeg0 ++ htmlEscape a.title ++ activitySeg1 ++
         htmlEscape a.description ++ activitySeg2
     | none => ""),
    docSeg7, htmlEscape m.summary, docSeg8, scormJsStr m.sections.length, docSeg9]

/-- `build_manifest_scorm12(title, org_id, sco_id, course_id, launch_file)`
(test.py lines 608‑632). -/
def build_manifest_scorm12 (title org_id sco_id course_id launch_file : String) : String :=
  manifestSeg0 ++ course_id ++ manifestSeg1 ++ org_id ++ manifestSeg2 ++ org_id ++
    manifestSeg3 ++ htmlEscape title ++ manifestSeg4 ++ sco_id ++ manifestSeg5 ++
    sco_id ++ manifestSeg6 ++ htmlEscape title ++ manifestSeg7 ++ sco_id ++
    manifestSeg8 ++ launch_file ++ manifestSeg9 ++ launch_file ++ manifestSeg10

/-- Configuration constants (test.py lines 13‑20). -/
def PACKAGE_TITLE : String := "Lesson Plan 2 - Argument Construction"

def SCO_IDENTIFIER : String := "SCO-1"

def ORG_IDENTIFIER : String := "ORG-1"

def COURSE_IDENTIFIER : String := "COURSE-ARG-CONSTRUCT"

def LAUNCH_FILE : String := "pdf_to_scorm/index.html"

/-- The archive built by step 5 of `main` (test.py lines 677‑679): the
manifest is stored under the fixed entry name `imsmanifest.xml` and the
rendered document under the fixed entry name `index.html` (the arcname
arguments of `zipf.write` are hard-coded literals). -/
def mainArchiveEntries (manifest index_html : String) : List (String × String) :=
  [("imsmanifest.xml", manifest), ("index.html", index_html)]

/-- The second fallback dictionary constructed in the `except` branch of
step 2 of `main` (test.py lines 652‑659). -/
def mainFallbackContent (text : String) : RawContent where
  introduction := some ("Welcome to " ++ PACKAGE_TITLE)
  learning_objectives := some ["Understand core concepts", "Apply knowledge practically"]
  sections := some [{ title := some "Content", content := some text }]
  quiz := some []
  activity := some { title := some "Practice Exercise", description := some "Apply what you\x27ve learned." }
  summary := some "Review the key concepts covered in this lesson."

/-- A JSON value stored under a list-valued key of the parsed response
object: the key may be absent, hold JSON `null` (Python `None`), or hold a
list. `RawContent`'s `Option` fields cannot distinguish an absent key from
a key holding `null`; that distinction matters in step 2 of `main`, where
`len(d.get(key, []))` raises `TypeError` on a present-but-null key. -/
inductive ListField (α : Type) where
  | absent
  | null
  | list (elems : List α)
deriving DecidableEq

/-- The parsed response object with JSON `null` representable under the
three list-valued keys that step 2 of `main` passes to `len` (the other
keys are not dereferenced there, so `Option` suffices for them). -/
structure RawContentJson where
  introduction : Option String
  learning_objectives : ListField String
  sections : ListField RawSection
  quiz : ListField RawQuizItem
  activity : Option RawActivity
  summary : Option String
deriving DecidableEq

/-- Embed a null-free content dictionary into the null-aware model. -/
def RawContent.toJson (c : RawContent) : RawContentJson where
  introduction := c.introduction
  learning_objectives :=
    match c.learning_objectives with
    | some l => ListField.list l
    | none => ListField.absent
  sections :=
    match c.sections with
    | some l => ListField.list l
    | none => ListField.absent
  quiz :=
    match c.quiz with
    | some l => ListField.list l
    | none => ListField.absent
  activity := c.activity
  summary := c.summary

/-- Generation-service behaviour over the null-aware response model. -/
inductive GenBehaviorJson where
  | serviceFailure
  | invalidJson
  | jsonObject (parsed : RawContentJson)
deriving DecidableEq

/-- Lift a null-free behaviour into the null-aware behaviour model. -/
def liftGenBehavior : GenBehavior → GenBehaviorJson
  | .serviceFailure => .serviceFailure
  | .invalidJson => .invalidJson
  | .jsonObject v => .jsonObject v.toJson

/-- `enhance_content_with_ai` (test.py lines 42‑103) over the null-aware
response model: exactly the same control flow as
`enhance_content_with_ai` — the `try`/`except Exception` catches every
request/parse exception and substitutes the fallback, while a parsed JSON
object (here allowed to carry `null` values) is returned unchanged.
Proved to agree with `enhance_content_with_ai` on null-free behaviours
(`enhance_json_agrees`). -/
def enhance_content_with_ai_json (behavior : GenBehaviorJson) (raw_text title : String) :
    Except PyErr RawContentJson :=
  match behavior with
  | .jsonObject parsed => .ok parsed
  | .serviceFailure => .ok (RawContent.toJson (fallbackContent raw_text title))
  | .invalidJson => .ok (RawContent.toJson (fallbackContent raw_text title))

/-- `d.get(key, [])` for a list-valued key: the default applies only when
the key is absent; a key holding JSON `null` yields Python `None`
(modelled as `none`). -/
def ListField.getList {α : Type} : ListField α → Option (List α)
  | .absent => some []
  | .null => none
  | .list l => some l

/-- Python `len` on the result of `d.get(key, [])`: defined on lists,
raises `TypeError` on `None`. -/
def pyLen {α : Type} : Option (List α) → Except PyErr Nat
  | none => .error (.typeError "object of type \x27NoneType\x27 has no len()")
  | some l => .ok l.length

/-- The `try` block of step 2 of `main` (test.py lines 644‑648): the call
to `enhance_content_with_ai` followed by the three logging lines that
compute `len(enhanced_content.get('sections', []))`,
`len(enhanced_content.get('quiz', []))` and
`len(enhanced_content.get('learning_objectives', []))`, in source order;
any exception raised by either part escapes the `try` block. -/
def mainStep2Try (behavior : GenBehaviorJson) (text : String) : Except PyErr RawContentJson := do
  let enhanced_content ← enhance_content_with_ai_json behavior text PACKAGE_TITLE
  let _ ← pyLen enhanced_content.sections.getList
  let _ ← pyLen enhanced_content.quiz.getList
  let _ ← pyLen enhanced_content.learning_objectives.getList
  pure enhanced_content

/-- Step 2 of `main` (test.py lines 644‑659): the `try` block above under
`except Exception`, whose handler substitutes `mainFallbackContent` (the
second, differently-worded fallback). -/
def mainEnhancedContentJson (behavior : GenBehaviorJson) (text : String) : RawContentJson :=
  match mainStep2Try behavior text with
  | .ok c => c
  | .error _ => RawContent.toJson (mainFallbackContent text)

/-- State of the embedded ProgressBridge script: the `completedSections`
set, the per-quiz disabled submit buttons, the visual progress indicator,
and the most recent host-API writes (`cmi.core.score.raw`,
`cmi.core.lesson_status`, number of `LMSCommit` calls). -/
structure BridgeState where
  completedSections : Finset String
  submitDisabled : Finset Nat
  progressPct : Nat
  progressText : String
  lmsScore : Option String
  lmsStatus : Option String
  commitCount : Nat
deriving DecidableEq

/-- DOM state at load: empty completion set, all submit buttons enabled,
indicator at `0% Complete`, nothing written to the host. -/
def initBridgeState : BridgeState :=
  { completedSections := ∅, submitDisabled := ∅, progressPct := 0,
    progressText := "0% Complete", lmsScore := none, lmsStatus := none,
    commitCount := 0 }

/-- `updateProgress()` (test.py lines 167‑179): recompute
`Math.round((completedSections.size / totalSections) * 100)`, update the
indicator, and if an API is bound write the score, write
`"completed"`/`"incomplete"` according to `progress === 100`, and commit. -/
def updateProgress (bound : Bool) (totalSections : Nat) (st : BridgeState) : BridgeState :=
  let progress := jsRound100 st.completedSections.card totalSections
  { st with
    progressPct := progress,
    progressText := Nat.repr progress ++ "% Complete",
    lmsScore := if bound then some (Nat.repr progress) else st.lmsScore,
    lmsStatus := if bound then
        some (if progress = 100 then "completed" else "incomplete")
      else st.lmsStatus,
    commitCount := if bound then st.commitCount + 1 else st.commitCount }

/-- `markSectionComplete(sectionId)` (test.py lines 181‑184). -/
def markSectionComplete (bound : Bool) (totalSections : Nat) (sectionId : String)
    (st : BridgeState) : BridgeState :=
  updateProgress bound totalSections
    { st with completedSections := insert sectionId st.completedSections }

/-- `checkAnswer(quizIndex)` (test.py lines 215‑235), parameterised by the
rendered quiz data (option count and correct index per rendered quiz
block). A disabled submit button cannot fire; with no radio checked the
handler alerts and returns; otherwise the selected option's rendered
`data-correct` value (`"True"`/`"False"`, from `datasetCorrectValue`) is
compared with the lowercase literal `'true'`, the button is disabled, and
only on a `true` comparison is `'quiz-' + quizIndex` marked complete. -/
def checkAnswer (bound : Bool) (totalSections : Nat) (quizData : List (Nat × Int))
    (quizIndex : Nat) (selected : Option Nat) (st : BridgeState) : BridgeState :=
  if quizIndex ∈ st.submitDisabled then st
  else
    match quizData[quizIndex]? with
    | none => st
    | some (numOptions, correct) =>
      match selected with
      | none => st
      | some j =>
        if j < numOptions then
          let isCorrect := datasetCorrectValue correct j == "true"
          let st1 := { st with submitDisabled := insert quizIndex st.submitDisabled }
          if isCorrect then
            markSectionComplete bound totalSections ("quiz-" ++ Nat.repr quizIndex) st1
          else st1
        else st

/-- Events driving the ProgressBridge: sustained ≥80% visibility of the
section block `section-{i}` (the IntersectionObserver path), or a click on
the submit button of quiz block `quizIndex` with `selected` the checked
option index, if any. -/
inductive BridgeEvent where
  | sectionVisible (i : Nat)
  | submitQuiz (quizIndex : Nat) (selected : Option Nat)
deriving DecidableEq

/-- One transition of the ProgressBridge: the observer only fires for
rendered section blocks (`i < numSections`, with DOM id `section-{i}`);
submissions go through `checkAnswer`. -/
def bridgeStep (bound : Bool) (numSections : Nat) (quizData : List (Nat × Int))
    (st : BridgeState) : BridgeEvent → BridgeState
  | .sectionVisible i =>
    if i < numSections then
      markSectionComplete bound numSections ("section-" ++ Nat.repr i) st
    else st
  | .submitQuiz quizIndex selected =>
    checkAnswer bound numSections quizData quizIndex selected st

/-- `init()` (test.py lines 186‑212): if a host API was found, session
start is signalled and `updateProgress()` runs once. -/
def bridgeInit (bound : Bool) (numSections : Nat) : BridgeState :=
  if bound then updateProgress bound numSections initBridgeState else initBridgeState

/-- Run the bridge from load over a sequence of events. -/
def runBridge (bound : Bool) (numSections : Nat) (quizData : List (Nat × Int))
    (events : List BridgeEvent) : BridgeState :=
  events.foldl (bridgeStep bound numSections quizData) (bridgeInit bound numSections)

/-- Reachability of a bridge state from load. -/
def BridgeReachable (bound : Bool) (numSections : Nat) (quizData : List (Nat × Int))
    (st : BridgeState) : Prop :=
  ∃ events, runBridge bound numSections quizData events = st

/-- `pattern` occurs verbatim (as a contiguous substring) in `target`. -/
def OccursIn (pat target : String) : Prop := pat.data <:+: target.data

/-! ### General lemmas about string containment, `String.join`, `htmlEscape`
and decimal representations. -/

theorem occursIn_intro (p d a b : String) (h : d = a ++ (p ++ b)) : OccursIn p d := by
  subst h
  exact ⟨a.data, b.data, by simp [String.append_assoc]⟩

theorem occursIn_refl (p : String) : OccursIn p p := ⟨[], [], by simp⟩

theorem occursIn_append_left {p a : String} (b : String) (h : OccursIn p a) :
    OccursIn p (a ++ b) := by
  obtain ⟨s, t, hst⟩ := h
  exact ⟨s, t ++ b.data, by simp [← hst]⟩

theorem occursIn_append_right {p b : String} (a : String) (h : OccursIn p b) :
    OccursIn p (a ++ b) := by
  obtain ⟨s, t, hst⟩ := h
  exact ⟨a.data ++ s, t, by simp [← hst]⟩

theorem occursIn_trans {p q d : String} (h1 : OccursIn p q) (h2 : OccursIn q d) :
    OccursIn p d := List.IsInfix.trans h1 h2

theorem stringFoldlAppend (l : List String) (a : String) :
    l.foldl (· ++ ·) a = a ++ String.join l := by
  induction l generalizing a with
  | nil => simp [String.join]
  | cons x xs ih =>
    show xs.foldl (· ++ ·) (a ++ x) = a ++ String.join (x :: xs)
    rw [ih (a ++ x), String.append_assoc]
    congr 1
    show x ++ String.join xs = String.join (x :: xs)
    show x ++ String.join xs = xs.foldl (· ++ ·) ("" ++ x)
    rw [ih ("" ++ x), String.empty_append]

theorem stringJoin_cons (s : String) (l : List String) :
    String.join (s :: l) = s ++ String.join l := by
  show l.foldl (· ++ ·) ("" ++ s) = s ++ String.join l
  rw [stringFoldlAppend, String.empty_append]

theorem occursIn_of_mem {s : String} {l : List String} (h : s ∈ l) :
    OccursIn s (String.join l) := by
  induction l with
  | nil => cases h
  | cons x xs ih =>
    rw [stringJoin_cons]
    rcases List.mem_cons.mp h with h1 | h2
    · subst h1; exact occursIn_append_left _ (occursIn_refl s)
    · exact occursIn_append_right _ (ih h2)

theorem occursIn_join_of_occursIn {p s : String} {l : List String} (hs : s ∈ l)
    (h : OccursIn p s) : OccursIn p (String.join l) :=
  occursIn_trans h (occursIn_of_mem hs)

theorem escapeChar_no_angle (c : Char) :
    Char.ofNat 60 ∉ (escapeChar c).data ∧ Char.ofNat 62 ∉ (escapeChar c).data := by
  unfold escapeChar
  split_ifs with h1 h2 h3 h4 h5
  · exact ⟨by decide, by decide⟩
  · exact ⟨by decide, by decide⟩
  · exact ⟨by decide, by decide⟩
  · exact ⟨by decide, by decide⟩
  · exact ⟨by decide, by decide⟩
  · constructor <;> intro hc <;> simp [String.singleton] at hc
    · exact h2 (hc.symm.trans (by decide))
    · exact h3 (hc.symm.trans (by decide))

theorem escapeList_no_angle (l : List Char) :
    Char.ofNat 60 ∉ (String.join (l.map escapeChar)).data ∧
      Char.ofNat 62 ∉ (String.join (l.map escapeChar)).data := by
  induction l with
  | nil => exact ⟨by decide, by decide⟩
  | cons x xs ih =>
    rw [List.map_cons, stringJoin_cons, String.data_append]
    constructor <;> intro hc <;> rcases List.mem_append.mp hc with hc | hc
    · exact (escapeChar_no_angle x).1 hc
    · exact ih.1 hc
    · exact (escapeChar_no_angle x).2 hc
    · exact ih.2 hc

theorem htmlEscape_no_angle (s : String) :
    Char.ofNat 60 ∉ (htmlEscape s).data ∧ Char.ofNat 62 ∉ (htmlEscape s).data :=
  escapeList_no_angle s.data

theorem digitChar_sub48 {n : Nat} (h : n < 10) : (Nat.digitChar n).toNat - 48 = n := by
  interval_cases n <;> decide

theorem decValue_append_digit (l : List Char) (c : Char) :
    decValue (l ++ [c]) = 10 * decValue l + (c.toNat - 48) := by
  unfold decValue
  rw [List.foldl_append]
  rfl

theorem decValue_decDigits (n : Nat) : decValue (decDigits n) = n := by
  induction n using Nat.strong_induction_on with
  | _ n ih =>
    unfold decDigits
    split
    · rename_i h
      show decValue [Nat.digitChar n] = n
      unfold decValue
      simp [digitChar_sub48 h]
    · rename_i h
      rw [decValue_append_digit, ih (n / 10) (Nat.div_lt_self (by omega) (by omega)),
        digitChar_sub48 (Nat.mod_lt n (by omega))]
      omega

theorem decDigits_injective : Function.Injective decDigits := by
  intro m n h
  have hm := decValue_decDigits m
  rw [h, decValue_decDigits] at hm
  exact hm.symm

theorem toDigitsCore_eq_decDigits :
    ∀ (fuel n : Nat) (ds : List Char), n < fuel →
      Nat.toDigitsCore 10 fuel n ds = decDigits n ++ ds := by
  intro fuel
  induction fuel with
  | zero => intro n ds h; omega
  | succ f ih =>
    intro n ds h
    show (if n / 10 = 0 then Nat.digitChar (n % 10) :: ds
          else Nat.toDigitsCore 10 f (n / 10) (Nat.digitChar (n % 10) :: ds)) =
        decDigits n ++ ds
    by_cases h10 : n < 10
    · rw [if_pos (by omega)]
      unfold decDigits
      rw [if_pos h10, Nat.mod_eq_of_lt h10]
      rfl
    · rw [if_neg (by omega)]
      rw [ih (n / 10) (Nat.digitChar (n % 10) :: ds)
        (by have := Nat.div_lt_self (by omega : 0 < n) (by omega : 1 < 10); omega)]
      conv_rhs => rw [decDigits, if_neg h10]
      simp

theorem natRepr_eq_decDigits (n : Nat) : Nat.repr n = (decDigits n).asString := by
  show (Nat.toDigits 10 n).asString = (decDigits n).asString
  unfold Nat.toDigits
  rw [toDigitsCore_eq_decDigits (n + 1) n [] (by omega), List.append_nil]

theorem natRepr_injective : Function.Injective Nat.repr := by
  intro m n h
  rw [natRepr_eq_decDigits, natRepr_eq_decDigits, List.asString_inj] at h
  exact decDigits_injective h

/-! ### `build_enhanced_html` on fully-populated modules agrees with the
pure renderer `renderLM`. -/

theorem LMSection.toRaw_title (s : LMSection) : s.toRaw.title = some s.title := rfl

theorem LMSection.toRaw_content (s : LMSection) : s.toRaw.content = some s.content := rfl

theorem LMQuizItem.toRaw_question (q : LMQuizItem) : q.toRaw.question = some q.question := rfl

theorem LMQuizItem.toRaw_options (q : LMQuizItem) : q.toRaw.options = some q.options := rfl

theorem LMQuizItem.toRaw_correct (q : LMQuizItem) : q.toRaw.correct = some q.correct := rfl

theorem LMQuizItem.toRaw_explanation (q : LMQuizItem) :
    q.toRaw.explanation = some q.explanation := rfl

theorem sectionsHtmlAux_toRaw (l : List LMSection) (i : Nat) :
    sectionsHtmlAux i (l.map LMSection.toRaw) = .ok (sectionsHtmlLM i l) := by
  induction l generalizing i with
  | nil => rfl
  | cons s rest ih =>
    simp [sectionsHtmlAux, sectionsHtmlLM, requireKey, bind, Except.bind, pure, Except.pure,
      LMSection.toRaw_title, LMSection.toRaw_content, ih]

theorem optionsHtmlAux_toRaw (q : LMQuizItem) (i : Nat) (opts : List String) (j : Nat) :
    optionsHtmlAux i (LMQuizItem.toRaw q) j opts = .ok (optionsHtmlLM i q.correct j opts) := by
  induction opts generalizing j with
  | nil => rfl
  | cons o rest ih =>
    simp [optionsHtmlAux, optionsHtmlLM, requireKey, bind, Except.bind, pure, Except.pure,
      LMQuizItem.toRaw_correct, ih]

theorem quizHtmlAux_toRaw (l : List LMQuizItem) (i : Nat) :
    quizHtmlAux i (l.map LMQuizItem.toRaw) = .ok (quizHtmlLM i l) := by
  induction l generalizing i with
  | nil => rfl
  | cons q rest ih =>
    simp [quizHtmlAux, quizHtmlLM, requireKey, bind, Except.bind, pure, Except.pure,
      LMQuizItem.toRaw_options, LMQuizItem.toRaw_question, LMQuizItem.toRaw_explanation,
      optionsHtmlAux_toRaw q i q.options 0, ih]

theorem LearningModule.toRaw_introduction (m : LearningModule) :
    m.toRaw.introduction = some m.introduction := rfl

theorem LearningModule.toRaw_objectives (m : LearningModule) :
    m.toRaw.learning_objectives = some m.learning_objectives := rfl

theorem LearningModule.toRaw_sections (m : LearningModule) :
    m.toRaw.sections = some (m.sections.map LMSection.toRaw) := rfl

theorem LearningModule.toRaw_quiz (m : LearningModule) :
    m.toRaw.quiz = some (m.quiz.map LMQuizItem.toRaw) := rfl

theorem LearningModule.toRaw_summary (m : LearningModule) :
    m.toRaw.summary = some m.summary := rfl

theorem build_enhanced_html_toRaw (m : LearningModule) (t : String) :
    build_enhanced_html m.toRaw t = .ok (renderLM m t) := by
  have hq : quizTruthy m.toRaw = !m.quiz.isEmpty := by
    cases hql : m.quiz with
    | nil => simp [quizTruthy, LearningModule.toRaw, hql]
    | cons a l => simp [quizTruthy, LearningModule.toRaw, hql]
  have hcond : (if quizTruthy m.toRaw then
      quizSectionSeg0 ++ quizHtmlLM 0 m.quiz ++ quizSectionSeg1 else "") =
      (if m.quiz.isEmpty then ""
       else quizSectionSeg0 ++ quizHtmlLM 0 m.quiz ++ quizSectionSeg1) := by
    rw [hq]; cases m.quiz.isEmpty <;> rfl
  have hact : (if activityTruthy m.toRaw then activityBlockStr m.toRaw else "") =
      (match m.activity with
       | some a => activitySeg0 ++ htmlEscape a.title ++ activitySeg1 ++
           htmlEscape a.description ++ activitySeg2
       | none => "") := by
    cases ha : m.activity with
    | none => simp [activityTruthy, LearningModule.toRaw, ha]
    | some a =>
      simp [activityTruthy, activityBlockStr, LearningModule.toRaw, LMActivity.toRaw, ha]
  simp only [build_enhanced_html, LearningModule.toRaw_introduction,
    LearningModule.toRaw_objectives, LearningModule.toRaw_sections,
    LearningModule.toRaw_quiz, LearningModule.toRaw_summary, Option.getD_some,
    sectionsHtmlAux_toRaw, quizHtmlAux_toRaw, List.length_map, bind, Except.bind,
    renderLM, hcond, hact]
  rfl

/-! ### Occurrence lemmas: where each interpolated fragment sits in the
rendered document. -/

theorem sectionBlock_title_occurs (i : Nat) (t c : String) :
    OccursIn (htmlEscape t) (sectionBlock i t c) :=
  occursIn_intro _ _ (sectionSeg0 ++ Nat.repr i ++ sectionSeg1)
    (sectionSeg2 ++ String.replace (htmlEscape c) "\n" "<br>" ++ sectionSeg3)
    (by simp [sectionBlock, String.append_assoc])

theorem sectionBlock_content_occurs (i : Nat) (t c : String) :
    OccursIn (String.replace (htmlEscape c) "\n" "<br>") (sectionBlock i t c) :=
  occursIn_intro _ _ (sectionSeg0 ++ Nat.repr i ++ sectionSeg1 ++ htmlEscape t ++ sectionSeg2)
    sectionSeg3 (by simp [sectionBlock, String.append_assoc])

theorem sectionBlock_id_occurs (i : Nat) (t c : String) :
    OccursIn ("<section class=\"content-section\" id=\"section-" ++ Nat.repr i ++ "\">")
      (sectionBlock i t c) :=
  occursIn_intro _ _ "\n        "
    ("\n            <h2>" ++ htmlEscape t ++ sectionSeg2 ++
      String.replace (htmlEscape c) "\n" "<br>" ++ sectionSeg3)
    (by rw [sectionBlock,
        show sectionSeg0 = "\n        " ++ "<section class=\"content-section\" id=\"section-"
          from by decide,
        show sectionSeg1 = "\">" ++ "\n            <h2>" from by decide]
        simp only [String.append_assoc])

theorem sectionsHtmlLM_block_occurs {l : List LMSection} {j : Nat} {s : LMSection}
    (i : Nat) (h : l[j]? = some s) :
    OccursIn (sectionBlock (i + j) s.title s.content) (sectionsHtmlLM i l) := by
  induction l generalizing i j with
  | nil => simp at h
  | cons x rest ih =>
    cases j with
    | zero =>
      rw [List.getElem?_cons_zero, Option.some_inj] at h
      subst h
      exact occursIn_append_left _ (occursIn_refl _)
    | succ j =>
      rw [List.getElem?_cons_succ] at h
      have := ih (i + 1) h
      rw [show i + 1 + j = i + (j + 1) from by omega] at this
      exact occursIn_append_right _ this

theorem optionRow_option_occurs (i j : Nat) (o : String) (correct : Int) :
    OccursIn (htmlEscape o) (optionRow i j o correct) :=
  occursIn_intro _ _ (optionSeg0 ++ Nat.repr i ++ optionSeg1 ++ Nat.repr j ++ optionSeg2 ++
      datasetCorrectValue correct j ++ optionSeg3) optionSeg4
    (by simp [optionRow, String.append_assoc])

theorem optionRow_name_occurs (i j : Nat) (o : String) (correct : Int) :
    OccursIn ("name=\"quiz-" ++ Nat.repr i ++ "\"") (optionRow i j o correct) :=
  occursIn_intro _ _
    "\n            <label class=\"quiz-option\">\n                <input type=\"radio\" "
    (" value=\"" ++ Nat.repr j ++ optionSeg2 ++ datasetCorrectValue correct j ++ optionSeg3 ++
      htmlEscape o ++ optionSeg4)
    (by rw [optionRow,
        show optionSeg0 =
          "\n            <label class=\"quiz-option\">\n                <input type=\"radio\" " ++
            "name=\"quiz-" from by decide,
        show optionSeg1 = "\"" ++ " value=\"" from by decide]
        simp only [String.append_assoc])

theorem optionRow_flag_occurs (i j : Nat) (o : String) (correct : Int) :
    OccursIn ("value=\"" ++ Nat.repr j ++ "\" data-correct=\"" ++
        datasetCorrectValue correct j ++ "\"")
      (optionRow i j o correct) :=
  occursIn_intro _ _ (optionSeg0 ++ Nat.repr i ++ "\" ")
    (">\n                <span>" ++ htmlEscape o ++ optionSeg4)
    (by rw [optionRow,
        show optionSeg1 = "\" " ++ "value=\"" from by decide,
        show optionSeg2 = "\" data-correct=\"" from by decide,
        show optionSeg3 = "\"" ++ ">\n                <span>" from by decide]
        simp only [String.append_assoc])

theorem optionsHtmlLM_row_occurs {opts : List String} {k : Nat} {o : String}
    (i : Nat) (correct : Int) (j : Nat) (h : opts[k]? = some o) :
    OccursIn (optionRow i (j + k) o correct) (optionsHtmlLM i correct j opts) := by
  induction opts generalizing j k with
  | nil => simp at h
  | cons x rest ih =>
    cases k with
    | zero =>
      rw [List.getElem?_cons_zero, Option.some_inj] at h
      subst h
      exact occursIn_append_left _ (occursIn_refl _)
    | succ k =>
      rw [List.getElem?_cons_succ] at h
      have := ih (j + 1) h
      rw [show j + 1 + k = j + (k + 1) from by omega] at this
      exact occursIn_append_right _ this

theorem quizBlock_question_occurs (i : Nat) (q oh e : String) :
    OccursIn (htmlEscape q) (quizBlock i q oh e) :=
  occursIn_intro _ _ (quizItemSeg0 ++ Nat.repr i ++ quizItemSeg1)
    (quizItemSeg2 ++ oh ++ quizItemSeg3 ++ Nat.repr i ++ quizItemSeg4 ++
      htmlEscape e ++ quizItemSeg5)
    (by simp [quizBlock, String.append_assoc])

theorem quizBlock_explanation_occurs (i : Nat) (q oh e : String) :
    OccursIn (htmlEscape e) (quizBlock i q oh e) :=
  occursIn_intro _ _ (quizItemSeg0 ++ Nat.repr i ++ quizItemSeg1 ++ htmlEscape q ++
      quizItemSeg2 ++ oh ++ quizItemSeg3 ++ Nat.repr i ++ quizItemSeg4) quizItemSeg5
    (by simp [quizBlock, String.append_assoc])

theorem quizBlock_options_occurs (i : Nat) (q oh e : String) :
    OccursIn oh (quizBlock i q oh e) :=
  occursIn_intro _ _ (quizItemSeg0 ++ Nat.repr i ++ quizItemSeg1 ++ htmlEscape q ++
      quizItemSeg2)
    (quizItemSeg3 ++ Nat.repr i ++ quizItemSeg4 ++ htmlEscape e ++ quizItemSeg5)
    (by simp [quizBlock, String.append_assoc])

theorem quizBlock_id_occurs (i : Nat) (q oh e : String) :
    OccursIn ("<div class=\"quiz-question\" data-quiz=\"" ++ Nat.repr i ++ "\">")
      (quizBlock i q oh e) :=
  occursIn_intro _ _ "\n        "
    ("\n            <h3>" ++ htmlEscape q ++ quizItemSeg2 ++ oh ++ quizItemSeg3 ++
      Nat.repr i ++ quizItemSeg4 ++ htmlEscape e ++ quizItemSeg5)
    (by rw [quizBlock,
        show quizItemSeg0 = "\n        " ++ "<div class=\"quiz-question\" data-quiz=\""
          from by decide,
        show quizItemSeg1 = "\">" ++ "\n            <h3>" from by decide]
        simp only [String.append_assoc])

theorem quizHtmlLM_block_occurs {l : List LMQuizItem} {j : Nat} {q : LMQuizItem}
    (i : Nat) (h : l[j]? = some q) :
    OccursIn (quizBlock (i + j) q.question (optionsHtmlLM (i + j) q.correct 0 q.options)
        q.explanation)
      (quizHtmlLM i l) := by
  induction l generalizing i j with
  | nil => simp at h
  | cons x rest ih =>
    cases j with
    | zero =>
      rw [List.getElem?_cons_zero, Option.some_inj] at h
      subst h
      exact occursIn_append_left _ (occursIn_refl _)
    | succ j =>
      rw [List.getElem?_cons_succ] at h
      have := ih (i + 1) h
      rw [show i + 1 + j = i + (j + 1) from by omega] at this
      exact occursIn_append_right _ this

theorem occursIn_affix (u pre mid post v : String) :
    OccursIn (pre ++ mid ++ post) ((u ++ pre) ++ mid ++ (post ++ v)) :=
  occursIn_intro _ _ u v (by simp only [String.append_assoc])

theorem objectivesHtmlStr_item_occurs {o : String} {l : List String} (h : o ∈ l) :
    OccursIn ("<li>" ++ htmlEscape o ++ "</li>") (objectivesHtmlStr l) := by
  induction l with
  | nil => cases h
  | cons x rest ih =>
    rcases List.mem_cons.mp h with h1 | h2
    · subst h1
      exact occursIn_append_left _ (occursIn_refl _)
    · exact occursIn_append_right _ (ih h2)

theorem renderLM_part_occurs {p : String} (m : LearningModule) (t : String)
    (h : p ∈ [docSeg0, htmlEscape t, docSeg1, htmlEscape t, docSeg2,
      htmlEscape m.introduction, docSeg3, objectivesHtmlStr m.learning_objectives, docSeg4,
      sectionsHtmlLM 0 m.sections, docSeg5,
      (if m.quiz.isEmpty then ""
       else quizSectionSeg0 ++ quizHtmlLM 0 m.quiz ++ quizSectionSeg1),
      docSeg6,
      (match m.activity with
       | some a => activitySeg0 ++ htmlEscape a.title ++ activitySeg1 ++
           htmlEscape a.description ++ activitySeg2
       | none => ""),
      docSeg7, htmlEscape m.summary, docSeg8, scormJsStr m.sections.length, docSeg9]) :
    OccursIn p (renderLM m t) := by
  rw [renderLM]
  exact occursIn_of_mem h

theorem renderLM_sections_occurs {p : String} (m : LearningModule) (t : String)
    (h : OccursIn p (sectionsHtmlLM 0 m.sections)) : OccursIn p (renderLM m t) :=
  occursIn_trans h (renderLM_part_occurs m t (by simp))

theorem renderLM_objectives_occurs {p : String} (m : LearningModule) (t : String)
    (h : OccursIn p (objectivesHtmlStr m.learning_objectives)) : OccursIn p (renderLM m t) :=
  occursIn_trans h (renderLM_part_occurs m t (by simp))

theorem renderLM_quiz_occurs {p : String} (m : LearningModule) (t : String)
    (hne : m.quiz ≠ []) (h : OccursIn p (quizHtmlLM 0 m.quiz)) : OccursIn p (renderLM m t) := by
  have hfalse : m.quiz.isEmpty = false := by
    cases hq : m.quiz with
    | nil => exact absurd hq hne
    | cons a l => rfl
  have hp : OccursIn (if m.quiz.isEmpty then ""
      else quizSectionSeg0 ++ quizHtmlLM 0 m.quiz ++ quizSectionSeg1) (renderLM m t) :=
    renderLM_part_occurs m t (by simp)
  rw [hfalse, if_neg (by decide : ¬ (false = true))] at hp
  exact occursIn_trans (occursIn_append_left _ (occursIn_append_right _ h)) hp

theorem renderLM_activity_occurs {a : LMActivity} (m : LearningModule) (t : String)
    (ha : m.activity = some a) :
    OccursIn (htmlEscape a.title) (renderLM m t) ∧
      OccursIn (htmlEscape a.description) (renderLM m t) := by
  have hp : OccursIn (match m.activity with
      | some a => activitySeg0 ++ htmlEscape a.title ++ activitySeg1 ++
          htmlEscape a.description ++ activitySeg2
      | none => "") (renderLM m t) :=
    renderLM_part_occurs m t (by simp)
  rw [ha] at hp
  constructor
  · exact occursIn_trans (occursIn_append_left _ (occursIn_append_left _
      (occursIn_append_left _ (occursIn_append_right _ (occursIn_refl _))))) hp
  · exact occursIn_trans (occursIn_append_left _ (occursIn_append_right _
      (occursIn_refl _))) hp

theorem datasetCorrect_beq_true_false (corr : Int) (j : Nat) :
    (datasetCorrectValue corr j == "true") = false := by
  unfold datasetCorrectValue pyStrBool
  cases decide ((j : Int) = corr) <;> rfl

theorem checkAnswer_cases (bound : Bool) (tot : Nat) (qd : List (Nat × Int)) (qi : Nat)
    (sel : Option Nat) (st : BridgeState) :
    checkAnswer bound tot qd qi sel st = st ∨
    checkAnswer bound tot qd qi sel st =
      { st with submitDisabled := insert qi st.submitDisabled } := by
  unfold checkAnswer
  split
  · left; rfl
  · split
    · left; rfl
    · split
      · left; rfl
      · split
        · rw [datasetCorrect_beq_true_false]
          right
          rfl
        · left; rfl

theorem jsRound100_le_100 {k n : Nat} (hn : 0 < n) (hk : k ≤ n) : jsRound100 k n ≤ 100 := by
  unfold jsRound100
  have h2n : 0 < 2 * n := by omega
  have := (Nat.div_lt_iff_lt_mul h2n).mpr (show 200 * k + n < 101 * (2 * n) by omega)
  omega

theorem sectionOnly_card_le {ns : Nat} {S : Finset String}
    (h : ∀ id ∈ S, ∃ k, k < ns ∧ id = "section-" ++ Nat.repr k) : S.card ≤ ns := by
  have hsub : S ⊆ (Finset.range ns).image (fun k => "section-" ++ Nat.repr k) := by
    intro id hid
    obtain ⟨k, hk, rfl⟩ := h id hid
    exact Finset.mem_image.mpr ⟨k, Finset.mem_range.mpr hk, rfl⟩
  calc S.card ≤ _ := Finset.card_le_card hsub
    _ ≤ (Finset.range ns).card := Finset.card_image_le
    _ = ns := Finset.card_range ns

theorem markSectionComplete_completedSections (b : Bool) (ns : Nat) (id : String)
    (st : BridgeState) :
    (markSectionComplete b ns id st).completedSections = insert id st.completedSections := rfl

theorem markSectionComplete_progressPct (b : Bool) (ns : Nat) (id : String) (st : BridgeState) :
    (markSectionComplete b ns id st).progressPct =
      jsRound100 (insert id st.completedSections).card ns := rfl

theorem bridgeStep_preserves_inv {bound : Bool} {ns : Nat} {qd : List (Nat × Int)}
    {st : BridgeState} (hns : 0 < ns) (e : BridgeEvent)
    (h : (∀ id ∈ st.completedSections, ∃ k, k < ns ∧ id = "section-" ++ Nat.repr k) ∧
      st.progressPct ≤ 100) :
    (∀ id ∈ (bridgeStep bound ns qd st e).completedSections,
      ∃ k, k < ns ∧ id = "section-" ++ Nat.repr k) ∧
      (bridgeStep bound ns qd st e).progressPct ≤ 100 := by
  cases e with
  | sectionVisible i =>
    simp only [bridgeStep]
    split
    · rename_i hi
      have hset : ∀ id ∈ (insert ("section-" ++ Nat.repr i)
          st.completedSections : Finset String),
          ∃ k, k < ns ∧ id = "section-" ++ Nat.repr k := by
        intro id hid
        rcases Finset.mem_insert.mp hid with h1 | h2
        · exact ⟨i, hi, h1⟩
        · exact h.1 id h2
      constructor
      · rw [markSectionComplete_completedSections]
        exact hset
      · rw [markSectionComplete_progressPct]
        exact jsRound100_le_100 hns (sectionOnly_card_le hset)
    · exact h
  | submitQuiz qi sel =>
    simp only [bridgeStep]
    rcases checkAnswer_cases bound ns qd qi sel st with hc | hc <;> rw [hc]
    · exact h
    · exact h

theorem runBridge_inv (bound : Bool) (ns : Nat) (qd : List (Nat × Int)) (hns : 0 < ns)
    (events : List BridgeEvent) :
    (∀ id ∈ (runBridge bound ns qd events).completedSections,
      ∃ k, k < ns ∧ id = "section-" ++ Nat.repr k) ∧
      (runBridge bound ns qd events).progressPct ≤ 100 := by
  have hinit : (∀ id ∈ (bridgeInit bound ns).completedSections,
      ∃ k, k < ns ∧ id = "section-" ++ Nat.repr k) ∧ (bridgeInit bound ns).progressPct ≤ 100 := by
    unfold bridgeInit
    split
    · constructor
      · intro id hid
        simp [updateProgress, initBridgeState] at hid
      · show jsRound100 (initBridgeState.completedSections.card) ns ≤ 100
        exact jsRound100_le_100 hns (by simp [initBridgeState])
    · constructor
      · intro id hid
        simp [initBridgeState] at hid
      · simp [initBridgeState]
  unfold runBridge
  generalize hst : bridgeInit bound ns = st0
  rw [hst] at hinit
  clear hst
  induction events generalizing st0 with
  | nil => exact hinit
  | cons e rest ih =>
    exact ih _ (bridgeStep_preserves_inv hns e hinit)

theorem bridgeReachable_inv {bound : Bool} {ns : Nat} {qd : List (Nat × Int)}
    {st : BridgeState} (hns : 0 < ns) (hr : BridgeReachable bound ns qd st) :
    (∀ id ∈ st.completedSections, ∃ k, k < ns ∧ id = "section-" ++ Nat.repr k) ∧
      st.progressPct ≤ 100 := by
  obtain ⟨events, rfl⟩ := hr
  exact runBridge_inv bound ns qd hns events

theorem stringDataInj {s t : String} (h : s.data = t.data) : s = t := by
  cases s; cases t
  exact congrArg String.mk h

theorem memIdx {α : Type} {l : List α} {a : α} (h : a ∈ l) : ∃ i : Nat, l[i]? = some a := by
  obtain ⟨i, rfl⟩ := List.mem_iff_get.mp h
  exact ⟨i.1, by simp⟩

/-! ### Claim theorems -/

/-- **C1 counterexample.** The claim says any JSON response with an
out-of-range `correctIndex` is discarded in favour of the fallback and that
the result always satisfies the §3 invariants. In the code,
`enhance_content_with_ai` returns a successfully parsed JSON object
unchanged with no validation: a parsed object whose quiz item has
`correct = 5` with only two options is returned as-is; it violates the §3
invariants and is not the fallback module. -/
theorem enhance_no_validation_counterexample :
    enhance_content_with_ai (GenBehavior.jsonObject
        { introduction := some "intro", learning_objectives := some ["o1"],
          sections := some [{ title := some "S", content := some "C" }],
          quiz := some [{ question := some "Q?", options := some ["A", "B"], correct := some 5, explanation := some "E" }],
          activity := none, summary := some "Done" }) "sample text" "Title" =
      Except.ok
        { introduction := some "intro", learning_objectives := some ["o1"],
          sections := some [{ title := some "S", content := some "C" }],
          quiz := some [{ question := some "Q?", options := some ["A", "B"], correct := some 5, explanation := some "E" }],
          activity := none, summary := some "Done" } ∧
    rawContentValid
        { introduction := some "intro", learning_objectives := some ["o1"],
          sections := some [{ title := some "S", content := some "C" }],
          quiz := some [{ question := some "Q?", options := some ["A", "B"], correct := some 5, explanation := some "E" }],
          activity := none, summary := some "Done" } = false ∧
    ({ introduction := some "intro", learning_objectives := some ["o1"],
       sections := some [{ title := some "S", content := some "C" }],
       quiz := some [{ question := some "Q?", options := some ["A", "B"], correct := some 5, explanation := some "E" }],
       activity := none, summary := some "Done" } : RawContent) ≠
      fallbackContent "sample text" "Title" :=
  ⟨rfl, by decide, by decide⟩

/-- **C1 amended.** `enhance_content_with_ai` returns the deterministic
fallback exactly when the request/parse raises (service failure or
non-JSON response) — and the fallback satisfies the §3 invariants — while
any successfully parsed JSON object is returned unchanged, without
validation of missing fields or of `correctIndex`. -/
theorem enhance_fallback_only_on_exceptions (raw_text title : String) :
    enhance_content_with_ai GenBehavior.serviceFailure raw_text title =
      Except.ok (fallbackContent raw_text title) ∧
    enhance_content_with_ai GenBehavior.invalidJson raw_text title =
      Except.ok (fallbackContent raw_text title) ∧
    rawContentValid (fallbackContent raw_text title) = true ∧
    ∀ v, enhance_content_with_ai (GenBehavior.jsonObject v) raw_text title = Except.ok v :=
  ⟨rfl, rfl, rfl, fun _ => rfl⟩

set_option maxRecDepth 8192

/-- **C2.** The claim (and spec §4.4) makes archive-entry/manifest-`href`
equality a hard invariant. The code evaluated at its own configuration
violates it: the archive entry names are the hard-coded
`imsmanifest.xml` and `index.html`, while the manifest (built with
`launch_file = LAUNCH_FILE = "pdf_to_scorm/index.html"`) declares
`href="pdf_to_scorm/index.html"` in both the `resource` and nested `file`
elements — a name that matches no archive entry. -/
theorem archive_entry_manifest_href_mismatch (document : String) :
    ((mainArchiveEntries (build_manifest_scorm12 PACKAGE_TITLE ORG_IDENTIFIER SCO_IDENTIFIER
        COURSE_IDENTIFIER LAUNCH_FILE) document).map Prod.fst =
      ["imsmanifest.xml", "index.html"]) ∧
    OccursIn ("href=\"" ++ LAUNCH_FILE ++ "\"")
      (build_manifest_scorm12 PACKAGE_TITLE ORG_IDENTIFIER SCO_IDENTIFIER
        COURSE_IDENTIFIER LAUNCH_FILE) ∧
    OccursIn ("<file href=\"" ++ LAUNCH_FILE ++ "\"/>")
      (build_manifest_scorm12 PACKAGE_TITLE ORG_IDENTIFIER SCO_IDENTIFIER
        COURSE_IDENTIFIER LAUNCH_FILE) ∧
    LAUNCH_FILE = "pdf_to_scorm/index.html" ∧
    LAUNCH_FILE ∉ ((mainArchiveEntries (build_manifest_scorm12 PACKAGE_TITLE ORG_IDENTIFIER
      SCO_IDENTIFIER COURSE_IDENTIFIER LAUNCH_FILE) document).map Prod.fst) := by
  refine ⟨rfl, ?_, ?_, rfl, ?_⟩
  · exact occursIn_intro _ _ (manifestSeg0 ++ COURSE_IDENTIFIER ++ manifestSeg1 ++
      ORG_IDENTIFIER ++ manifestSeg2 ++ ORG_IDENTIFIER ++ manifestSeg3 ++
      htmlEscape PACKAGE_TITLE ++ manifestSeg4 ++ SCO_IDENTIFIER ++ manifestSeg5 ++
      SCO_IDENTIFIER ++ manifestSeg6 ++ htmlEscape PACKAGE_TITLE ++ manifestSeg7 ++
      SCO_IDENTIFIER ++ "\" type=\"webcontent\" adlcp:scormtype=\"sco\" ")
      (">\n      <file href=\"" ++ LAUNCH_FILE ++ manifestSeg10) (by decide)
  · exact occursIn_intro _ _ (manifestSeg0 ++ COURSE_IDENTIFIER ++ manifestSeg1 ++
      ORG_IDENTIFIER ++ manifestSeg2 ++ ORG_IDENTIFIER ++ manifestSeg3 ++
      htmlEscape PACKAGE_TITLE ++ manifestSeg4 ++ SCO_IDENTIFIER ++ manifestSeg5 ++
      SCO_IDENTIFIER ++ manifestSeg6 ++ htmlEscape PACKAGE_TITLE ++ manifestSeg7 ++
      SCO_IDENTIFIER ++ manifestSeg8 ++ LAUNCH_FILE ++ "\">\n      ")
      ("\n    </resource>\n  </resources>\n</manifest>\n") (by decide)
  · rw [show ((mainArchiveEntries (build_manifest_scorm12 PACKAGE_TITLE ORG_IDENTIFIER
      SCO_IDENTIFIER COURSE_IDENTIFIER LAUNCH_FILE) document).map Prod.fst) =
      ["imsmanifest.xml", "index.html"] from rfl]
    decide

/-- **C3 counterexample.** A successful generation response with
`sections = []` is returned unchanged by `enhance_content_with_ai` (no
fallback section titled "Content" is substituted anywhere before
rendering), and `build_enhanced_html` renders the empty sections list as
the empty string — it succeeds and emits no placeholder paragraph. -/
theorem zero_sections_no_substitution_counterexample :
    enhance_content_with_ai (GenBehavior.jsonObject
        { introduction := some "", learning_objectives := some [], sections := some [],
          quiz := some [], activity := none, summary := some "" }) "raw text" "T" =
      Except.ok
        { introduction := some "", learning_objectives := some [], sections := some [],
          quiz := some [], activity := none, summary := some "" } ∧
    ({ introduction := some "", learning_objectives := some [], sections := some [],
       quiz := some [], activity := none, summary := some "" } : RawContent).sections =
      some [] ∧
    ({ introduction := some "", learning_objectives := some [], sections := some [],
       quiz := some [], activity := none, summary := some "" } : RawContent) ≠
      fallbackContent "raw text" "T" ∧
    sectionsHtmlAux 0 [] = Except.ok "" ∧
    (build_enhanced_html
        { introduction := some "", learning_objectives := some [], sections := some [],
          quiz := some [], activity := none, summary := some "" } "T").isOk = true :=
  ⟨rfl, rfl, by decide, rfl, rfl⟩

/-- **C3 amended.** The single fallback section titled "Content" holding
the raw text arises only from the exception fallback of
`enhance_content_with_ai`; a parsed JSON object (with any `sections`
value, including `[]`) passes through unchanged, and the renderer maps an
empty sections list to the empty string — there is no placeholder
paragraph for an empty content area. -/
theorem fallback_section_only_on_exception_and_empty_render (raw_text title : String) :
    enhance_content_with_ai GenBehavior.serviceFailure raw_text title =
      Except.ok (fallbackContent raw_text title) ∧
    (fallbackContent raw_text title).sections =
      some [{ title := some "Content", content := some raw_text }] ∧
    sectionsHtmlAux 0 [] = Except.ok "" ∧
    ∀ v, enhance_content_with_ai (GenBehavior.jsonObject v) raw_text title = Except.ok v :=
  ⟨rfl, rfl, rfl, fun _ => rfl⟩

/-- **C4.** The claim says submitting the option at `correctIndex` adds
`quiz-{i}` to the completion set immediately. In the code the rendered
flag is Python's `str(bool)` (`"True"`/`"False"`, from
`datasetCorrectValue`) while `checkAnswer` compares it with the lowercase
literal `'true'` under strict equality, so the comparison is always false:
submitting the correct option of quiz 0 (`correct = 0`, option 0) disables
the control, adds nothing, and `quiz-0` never enters the completion set;
afterwards no further submission changes the state. -/
theorem correct_submission_never_marks_quiz_complete :
    (∀ corr : Int, ∀ j : Nat, (datasetCorrectValue corr j == "true") = false) ∧
    (checkAnswer true 1 [(2, 0)] 0 (some 0) (bridgeInit true 1)).completedSections = ∅ ∧
    "quiz-0" ∉ (checkAnswer true 1 [(2, 0)] 0 (some 0) (bridgeInit true 1)).completedSections ∧
    (checkAnswer true 1 [(2, 0)] 0 (some 0) (bridgeInit true 1)).submitDisabled = {0} ∧
    ∀ selected, checkAnswer true 1 [(2, 0)] 0 selected
        (checkAnswer true 1 [(2, 0)] 0 (some 0) (bridgeInit true 1)) =
      checkAnswer true 1 [(2, 0)] 0 (some 0) (bridgeInit true 1) := by
  refine ⟨fun corr j => datasetCorrect_beq_true_false corr j, by decide, by decide, by decide, ?_⟩
  intro selected
  have hmem : 0 ∈ (checkAnswer true 1 [(2, 0)] 0 (some 0) (bridgeInit true 1)).submitDisabled :=
    by decide
  conv_lhs => rw [checkAnswer]
  rw [if_pos hmem]

/-- **C8.** `build_enhanced_html` is not total over what
`enhance_content_with_ai` can return: a parsed JSON object whose section
dictionary lacks the `title` key is returned unchanged by the enhancer,
and `build_enhanced_html` applied to it raises `KeyError: 'title'` instead
of producing a document. -/
theorem build_enhanced_html_keyerror_on_missing_title :
    enhance_content_with_ai (GenBehavior.jsonObject
        { introduction := some "intro", learning_objectives := some [],
          sections := some [{ title := none, content := some "body" }],
          quiz := some [], activity := none, summary := some "s" }) "raw" "T" =
      Except.ok
        { introduction := some "intro", learning_objectives := some [],
          sections := some [{ title := none, content := some "body" }],
          quiz := some [], activity := none, summary := some "s" } ∧
    build_enhanced_html
        { introduction := some "intro", learning_objectives := some [],
          sections := some [{ title := none, content := some "body" }],
          quiz := some [], activity := none, summary := some "s" } "T" =
      Except.error (PyErr.keyError "title") :=
  ⟨rfl, rfl⟩

/-- The null-aware enhancer agrees with `enhance_content_with_ai` on every
null-free behaviour: it is the same function over a wider response model. -/
theorem enhance_json_agrees (b : GenBehavior) (raw_text title : String) :
    enhance_content_with_ai_json (liftGenBehavior b) raw_text title =
      (enhance_content_with_ai b raw_text title).map RawContent.toJson := by
  cases b <;> rfl

/-- **C10 counterexample.** The claim says the `except` branch of step 2
of `main` is unreachable for every input. It is not: with a JSON-parseable
response `{"sections": null, …}`, `enhance_content_with_ai` returns the
parsed object unchanged without raising, but the `try` block of `main`
also contains the logging line computing
`len(enhanced_content.get('sections', []))`; `.get` yields `None` for the
present-but-null key, `len(None)` raises `TypeError`, and the `except`
branch builds the second fallback dictionary. -/
theorem main_second_fallback_reachable_counterexample :
    enhance_content_with_ai_json (GenBehaviorJson.jsonObject
        { introduction := some "i", learning_objectives := ListField.list [],
          sections := ListField.null, quiz := ListField.list [], activity := none,
          summary := some "s" }) "x" PACKAGE_TITLE =
      Except.ok
        { introduction := some "i", learning_objectives := ListField.list [],
          sections := ListField.null, quiz := ListField.list [], activity := none,
          summary := some "s" } ∧
    mainStep2Try (GenBehaviorJson.jsonObject
        { introduction := some "i", learning_objectives := ListField.list [],
          sections := ListField.null, quiz := ListField.list [], activity := none,
          summary := some "s" }) "x" =
      Except.error (PyErr.typeError "object of type \x27NoneType\x27 has no len()") ∧
    mainEnhancedContentJson (GenBehaviorJson.jsonObject
        { introduction := some "i", learning_objectives := ListField.list [],
          sections := ListField.null, quiz := ListField.list [], activity := none,
          summary := some "s" }) "x" =
      RawContent.toJson (mainFallbackContent "x") ∧
    mainEnhancedContentJson (GenBehaviorJson.jsonObject
        { introduction := some "i", learning_objectives := ListField.list [],
          sections := ListField.null, quiz := ListField.list [], activity := none,
          summary := some "s" }) "x" ≠
      ({ introduction := some "i", learning_objectives := ListField.list [],
         sections := ListField.null, quiz := ListField.list [], activity := none,
         summary := some "s" } : RawContentJson) :=
  ⟨rfl, rfl, rfl, by decide⟩

/-- **C10 amended.** `enhance_content_with_ai` itself never raises — every
request/parse exception is caught inside it — but the `except` branch of
step 2 of `main` is still reachable: the `try` block also wraps the three
logging lines calling `len` on the `.get('sections'/'quiz'/
'learning_objectives', [])` values, so the second fallback is substituted
exactly when the parsed object maps one of those keys to JSON `null`
(making `len(None)` raise `TypeError`); otherwise the enhancer's value is
kept. -/
theorem enhance_never_raises_but_main_fallback_reachable (behavior : GenBehaviorJson)
    (raw_text title : String) :
    (∃ c, enhance_content_with_ai_json behavior raw_text title = Except.ok c) ∧
    (∀ c, enhance_content_with_ai_json behavior raw_text PACKAGE_TITLE = Except.ok c →
      mainEnhancedContentJson behavior raw_text =
        if c.sections = ListField.null ∨ c.quiz = ListField.null ∨
            c.learning_objectives = ListField.null
        then RawContent.toJson (mainFallbackContent raw_text) else c) := by
  constructor
  · cases behavior with
    | jsonObject v => exact ⟨v, rfl⟩
    | serviceFailure => exact ⟨RawContent.toJson (fallbackContent raw_text title), rfl⟩
    | invalidJson => exact ⟨RawContent.toJson (fallbackContent raw_text title), rfl⟩
  · intro c h
    unfold mainEnhancedContentJson mainStep2Try
    rw [h]
    cases hs : c.sections <;> cases hq : c.quiz <;> cases hl : c.learning_objectives <;>
      simp [pyLen, ListField.getList, bind, Except.bind, pure, Except.pure, hs, hq, hl]

/-- Witness for C10's amended statement: a response with
`sections = null` reaches the second fallback. -/
theorem enhance_never_raises_but_main_fallback_reachable_witness :
    mainEnhancedContentJson (GenBehaviorJson.jsonObject
        { introduction := some "i", learning_objectives := ListField.list [],
          sections := ListField.null, quiz := ListField.list [], activity := none,
          summary := some "s" }) "sample" =
      RawContent.toJson (mainFallbackContent "sample") :=
  ((enhance_never_raises_but_main_fallback_reachable (GenBehaviorJson.jsonObject
      { introduction := some "i", learning_objectives := ListField.list [],
        sections := ListField.null, quiz := ListField.list [], activity := none,
        summary := some "s" }) "sample" PACKAGE_TITLE).2
    { introduction := some "i", learning_objectives := ListField.list [],
      sections := ListField.null, quiz := ListField.list [], activity := none,
      summary := some "s" } rfl).trans (if_pos (Or.inl rfl))

/-- Positional identifiers are distinct: `section-i` determines `i`. -/
theorem sectionId_injective {i j : Nat}
    (h : ("section-" ++ Nat.repr i : String) = "section-" ++ Nat.repr j) : i = j := by
  have hd := congrArg String.data h
  rw [String.data_append, String.data_append] at hd
  exact natRepr_injective (stringDataInj (List.append_cancel_left hd))

/-- **C5.** `updateProgress` after an addition to the completion set (every
addition goes through `markSectionComplete`): the new percentage is
`round(100 * |completionSet| / totalSections)`, the visible indicator is
updated to it, and when a host API is bound the score is written, the
status is `"completed"` iff the percentage is 100 (else `"incomplete"`),
and a commit follows immediately. -/
theorem updateProgress_reporting_spec (bound : Bool) (n : Nat) (st : BridgeState)
    (id : String) (h : 0 < n) :
    (markSectionComplete bound n id st).completedSections = insert id st.completedSections ∧
    (markSectionComplete bound n id st).progressPct =
      jsRound100 (insert id st.completedSections).card n ∧
    (markSectionComplete bound n id st).progressText =
      Nat.repr ((markSectionComplete bound n id st).progressPct) ++ "% Complete" ∧
    (bound = true →
      (markSectionComplete bound n id st).lmsScore =
        some (Nat.repr ((markSectionComplete bound n id st).progressPct)) ∧
      ((markSectionComplete bound n id st).lmsStatus = some "completed" ↔
        (markSectionComplete bound n id st).progressPct = 100) ∧
      ((markSectionComplete bound n id st).progressPct ≠ 100 →
        (markSectionComplete bound n id st).lmsStatus = some "incomplete") ∧
      (markSectionComplete bound n id st).commitCount = st.commitCount + 1) := by
  refine ⟨rfl, rfl, rfl, fun hb => ?_⟩
  subst hb
  have hpct : (markSectionComplete true n id st).lmsStatus =
      some (if (markSectionComplete true n id st).progressPct = 100 then "completed"
        else "incomplete") := rfl
  refine ⟨rfl, ⟨?_, ?_⟩, ?_, rfl⟩
  · intro hs
    by_contra hne
    rw [hpct, if_neg hne] at hs
    simp at hs
  · intro hp
    rw [hpct, if_pos hp]
  · intro hne
    rw [hpct, if_neg hne]

/-- Witness for C5: spec §8 Scenario 5 — with `totalSections = 4`,
completing the third item yields 75 / `"incomplete"`, completing the
fourth yields 100 / `"completed"`. -/
theorem updateProgress_reporting_spec_witness :
    (0 < 4 ∧
      (markSectionComplete true 4 "section-2"
        ⟨{"section-0", "section-1"}, ∅, 50, "50% Complete", some "50", some "incomplete",
          3⟩).progressPct = 75) ∧
    (markSectionComplete true 4 "section-2"
      ⟨{"section-0", "section-1"}, ∅, 50, "50% Complete", some "50", some "incomplete",
        3⟩).lmsStatus = some "incomplete" ∧
    (markSectionComplete true 4 "section-3"
      ⟨{"section-0", "section-1", "section-2"}, ∅, 75, "75% Complete", some "75",
        some "incomplete", 4⟩).progressPct = 100 ∧
    (markSectionComplete true 4 "section-3"
      ⟨{"section-0", "section-1", "section-2"}, ∅, 75, "75% Complete", some "75",
        some "incomplete", 4⟩).lmsStatus = some "completed" := by
  have h1 := updateProgress_reporting_spec true 4
    ⟨{"section-0", "section-1"}, ∅, 50, "50% Complete", some "50", some "incomplete", 3⟩
    "section-2" (by decide)
  have h2 := updateProgress_reporting_spec true 4
    ⟨{"section-0", "section-1", "section-2"}, ∅, 75, "75% Complete", some "75",
      some "incomplete", 4⟩ "section-3" (by decide)
  refine ⟨⟨by decide, ?_⟩, ?_, ?_, ?_⟩
  · rw [h1.2.1]; decide
  · exact (h1.2.2.2 rfl).2.2.1 (by rw [h1.2.1]; decide)
  · rw [h2.2.1]; decide
  · exact (h2.2.2.2 rfl).2.1.mpr (by rw [h2.2.1]; decide)

/-- **C9 counterexample.** The claim asserts a reachable state in which all
sections and all quizzes are completed (so with `S = Q = 1`, a reachable
state containing `quiz-0`). No such state is reachable: the rendered
`data-correct` values `"True"`/`"False"` never compare equal to `'true'`,
so `checkAnswer` never adds a quiz identifier to the completion set. -/
theorem quiz_completion_unreachable_counterexample :
    ¬ ∃ st, BridgeReachable true 1 [(2, 0)] st ∧ "quiz-0" ∈ st.completedSections := by
  rintro ⟨st, hr, hq⟩
  obtain ⟨k, hk, heq⟩ := (bridgeReachable_inv (by decide) hr).1 "quiz-0" hq
  interval_cases k
  exact absurd heq (by decide)

/-- **C9 amended.** In every reachable ProgressBridge state the completion
set holds only section identifiers `section-k` with `k < totalSections`
(quiz identifiers are unreachable because the correctness comparison
`dataset value === 'true'` is always false), so the percentage never
exceeds 100. -/
theorem bridge_percentage_le_100 (bound : Bool) (ns : Nat) (qd : List (Nat × Int))
    (st : BridgeState) (hns : 0 < ns) (hr : BridgeReachable bound ns qd st) :
    st.progressPct ≤ 100 ∧
    ∀ id ∈ st.completedSections, ∃ k, k < ns ∧ id = "section-" ++ Nat.repr k := by
  have h := bridgeReachable_inv hns hr
  exact ⟨h.2, h.1⟩

/-- Witness for C9's amended statement at a concrete run. -/
theorem bridge_percentage_le_100_witness :
    (runBridge true 2 [(2, 0)] [BridgeEvent.sectionVisible 0,
      BridgeEvent.submitQuiz 0 (some 0)]).progressPct ≤ 100 :=
  (bridge_percentage_le_100 true 2 [(2, 0)] _ (by decide)
    ⟨[BridgeEvent.sectionVisible 0, BridgeEvent.submitQuiz 0 (some 0)], rfl⟩).1

/-- **C6.** Every module-derived string interpolated into the rendered
document appears in escaped form: `build_enhanced_html` renders a
fully-populated module to `renderLM`, in which the title, introduction,
objectives, section titles and bodies (the body additionally with newlines
replaced by `<br>` after escaping), quiz questions, options and
explanations, activity fields and summary each occur as their
`htmlEscape` image; and `htmlEscape` output never contains `<` or `>`, so
no markup-significant character of any content field survives unescaped. -/
theorem render_escapes_all_module_fields (m : LearningModule) (t : String) :
    build_enhanced_html m.toRaw t = Except.ok (renderLM m t) ∧
    OccursIn (htmlEscape t) (renderLM m t) ∧
    OccursIn (htmlEscape m.introduction) (renderLM m t) ∧
    (∀ o ∈ m.learning_objectives,
      OccursIn ("<li>" ++ htmlEscape o ++ "</li>") (renderLM m t)) ∧
    (∀ s ∈ m.sections, OccursIn (htmlEscape s.title) (renderLM m t) ∧
      OccursIn (String.replace (htmlEscape s.content) "\n" "<br>") (renderLM m t)) ∧
    (∀ q ∈ m.quiz, OccursIn (htmlEscape q.question) (renderLM m t) ∧
      OccursIn (htmlEscape q.explanation) (renderLM m t) ∧
      ∀ o ∈ q.options, OccursIn (htmlEscape o) (renderLM m t)) ∧
    (∀ a, m.activity = some a → OccursIn (htmlEscape a.title) (renderLM m t) ∧
      OccursIn (htmlEscape a.description) (renderLM m t)) ∧
    OccursIn (htmlEscape m.summary) (renderLM m t) ∧
    ∀ s : String, Char.ofNat 60 ∉ (htmlEscape s).data ∧ Char.ofNat 62 ∉ (htmlEscape s).data := by
  refine ⟨build_enhanced_html_toRaw m t, renderLM_part_occurs m t (by simp),
    renderLM_part_occurs m t (by simp), ?_, ?_, ?_, ?_,
    renderLM_part_occurs m t (by simp), htmlEscape_no_angle⟩
  · intro o ho
    exact renderLM_objectives_occurs m t (objectivesHtmlStr_item_occurs ho)
  · intro s hs
    obtain ⟨j, hj⟩ := memIdx hs
    have hb := sectionsHtmlLM_block_occurs 0 hj
    rw [Nat.zero_add] at hb
    exact ⟨renderLM_sections_occurs m t
        (occursIn_trans (sectionBlock_title_occurs j s.title s.content) hb),
      renderLM_sections_occurs m t
        (occursIn_trans (sectionBlock_content_occurs j s.title s.content) hb)⟩
  · intro q hq
    have hne : m.quiz ≠ [] := List.ne_nil_of_mem hq
    obtain ⟨j, hj⟩ := memIdx hq
    have hb := quizHtmlLM_block_occurs 0 hj
    rw [Nat.zero_add] at hb
    refine ⟨renderLM_quiz_occurs m t hne (occursIn_trans (quizBlock_question_occurs j
        q.question (optionsHtmlLM j q.correct 0 q.options) q.explanation) hb),
      renderLM_quiz_occurs m t hne (occursIn_trans (quizBlock_explanation_occurs j
        q.question (optionsHtmlLM j q.correct 0 q.options) q.explanation) hb), ?_⟩
    intro o ho
    obtain ⟨k, hk⟩ := memIdx ho
    have hrow := optionsHtmlLM_row_occurs j q.correct 0 hk
    rw [Nat.zero_add] at hrow
    exact renderLM_quiz_occurs m t hne (occursIn_trans (occursIn_trans
      (occursIn_trans (optionRow_option_occurs j k o q.correct) hrow)
      (quizBlock_options_occurs j q.question (optionsHtmlLM j q.correct 0 q.options)
        q.explanation)) hb)
  · intro a ha
    exact renderLM_activity_occurs m t ha

/-- Witness for C6: a section body containing markup-significant
characters appears escaped, and no `htmlEscape` image contains `<`. -/
theorem render_escapes_all_module_fields_witness :
    OccursIn (String.replace (htmlEscape "<script>alert(1)</script>") "\n" "<br>")
      (renderLM
        { introduction := "I", learning_objectives := ["O"],
          sections := [{ title := "Ti", content := "<script>alert(1)</script>" }],
          quiz := [{ question := "Q", options := ["A", "B"], correct := 1, explanation := "Ex" }],
          activity := some { title := "AT", description := "AD" }, summary := "S" } "T") ∧
    Char.ofNat 60 ∉ (htmlEscape "<script>alert(1)</script>").data :=
  ⟨((render_escapes_all_module_fields
      { introduction := "I", learning_objectives := ["O"],
          sections := [{ title := "Ti", content := "<script>alert(1)</script>" }],
          quiz := [{ question := "Q", options := ["A", "B"], correct := 1, explanation := "Ex" }],
          activity := some { title := "AT", description := "AD" }, summary := "S" } "T").2.2.2.2.1
      { title := "Ti", content := "<script>alert(1)</script>" } (by decide)).2,
    ((render_escapes_all_module_fields
      { introduction := "I", learning_objectives := ["O"],
          sections := [{ title := "Ti", content := "<script>alert(1)</script>" }],
          quiz := [{ question := "Q", options := ["A", "B"], correct := 1, explanation := "Ex" }],
          activity := some { title := "AT", description := "AD" }, summary := "S" } "T").2.2.2.2.2.2.2.2 "<script>alert(1)</script>").1⟩

/-- **C7.** Positional identifiers in the rendered document: for every
section index `i` the document carries a block opener with identifier
`section-{i}`; these identifiers are pairwise distinct; every quiz index
`i` yields a block carrying `data-quiz="{i}"` whose option rows carry the
radio group name `quiz-{i}`, their option index `j`, and the
`data-correct` flag, which equals the Python rendering of the boolean
`j == correctIndex`. -/
theorem render_positional_identifiers_and_flags (m : LearningModule) (t : String) :
    build_enhanced_html m.toRaw t = Except.ok (renderLM m t) ∧
    (∀ i : Nat, ∀ s, m.sections[i]? = some s →
      OccursIn ("<section class=\"content-section\" id=\"section-" ++ Nat.repr i ++ "\">")
        (renderLM m t)) ∧
    (∀ i j : Nat, i ≠ j →
      ("section-" ++ Nat.repr i : String) ≠ "section-" ++ Nat.repr j) ∧
    (∀ i : Nat, ∀ q, m.quiz[i]? = some q →
      OccursIn ("<div class=\"quiz-question\" data-quiz=\"" ++ Nat.repr i ++ "\">")
        (renderLM m t) ∧
      ∀ j : Nat, ∀ o, q.options[j]? = some o →
        OccursIn ("name=\"quiz-" ++ Nat.repr i ++ "\"") (renderLM m t) ∧
        OccursIn ("value=\"" ++ Nat.repr j ++ "\" data-correct=\"" ++
          datasetCorrectValue q.correct j ++ "\"") (renderLM m t)) ∧
    (∀ corr : Int, ∀ j : Nat,
      datasetCorrectValue corr j = pyStrBool (decide ((j : Int) = corr))) := by
  refine ⟨build_enhanced_html_toRaw m t, ?_, ?_, ?_, fun _ _ => rfl⟩
  · intro i s hi
    have hb := sectionsHtmlLM_block_occurs 0 hi
    rw [Nat.zero_add] at hb
    exact renderLM_sections_occurs m t
      (occursIn_trans (sectionBlock_id_occurs i s.title s.content) hb)
  · intro i j hij heq
    exact hij (sectionId_injective heq)
  · intro i q hi
    have hne : m.quiz ≠ [] := by
      intro h0
      rw [h0] at hi
      simp at hi
    have hb := quizHtmlLM_block_occurs 0 hi
    rw [Nat.zero_add] at hb
    refine ⟨renderLM_quiz_occurs m t hne (occursIn_trans (quizBlock_id_occurs i
        q.question (optionsHtmlLM i q.correct 0 q.options) q.explanation) hb), ?_⟩
    intro j o hj
    have hrow := optionsHtmlLM_row_occurs i q.correct 0 hj
    rw [Nat.zero_add] at hrow
    constructor
    · exact renderLM_quiz_occurs m t hne (occursIn_trans (occursIn_trans
        (occursIn_trans (optionRow_name_occurs i j o q.correct) hrow)
        (quizBlock_options_occurs i q.question (optionsHtmlLM i q.correct 0 q.options)
          q.explanation)) hb)
    · exact renderLM_quiz_occurs m t hne (occursIn_trans (occursIn_trans
        (occursIn_trans (optionRow_flag_occurs i j o q.correct) hrow)
        (quizBlock_options_occurs i q.question (optionsHtmlLM i q.correct 0 q.options)
          q.explanation)) hb)

/-- Witness for C7: spec §8 Scenario 2 — two sections and one quiz item
with `correctIndex = 1` yield blocks `section-0`, `section-1`, and a
`quiz-0` block whose option at index 1 is flagged `True`. -/
theorem render_positional_identifiers_and_flags_witness :
    OccursIn ("<section class=\"content-section\" id=\"section-" ++ Nat.repr 1 ++ "\">")
      (renderLM
        { introduction := "I", learning_objectives := [],
          sections := [{ title := "S1", content := "C1" }, { title := "S2", content := "C2" }],
          quiz := [{ question := "Q", options := ["A", "B"], correct := 1, explanation := "E" }],
          activity := none, summary := "Su" } "T") ∧
    OccursIn ("value=\"" ++ Nat.repr 1 ++ "\" data-correct=\"" ++
        datasetCorrectValue 1 1 ++ "\"")
      (renderLM
        { introduction := "I", learning_objectives := [],
          sections := [{ title := "S1", content := "C1" }, { title := "S2", content := "C2" }],
          quiz := [{ question := "Q", options := ["A", "B"], correct := 1, explanation := "E" }],
          activity := none, summary := "Su" } "T") ∧
    datasetCorrectValue 1 1 = "True" :=
  ⟨(render_positional_identifiers_and_flags
      { introduction := "I", learning_objectives := [],
          sections := [{ title := "S1", content := "C1" }, { title := "S2", content := "C2" }],
          quiz := [{ question := "Q", options := ["A", "B"], correct := 1, explanation := "E" }],
          activity := none, summary := "Su" } "T").2.1 1 { title := "S2", content := "C2" } rfl,
   ((render_positional_identifiers_and_flags
      { introduction := "I", learning_objectives := [],
          sections := [{ title := "S1", content := "C1" }, { title := "S2", content := "C2" }],
          quiz := [{ question := "Q", options := ["A", "B"], correct := 1, explanation := "E" }],
          activity := none, summary := "Su" } "T").2.2.2.1 0
      { question := "Q", options := ["A", "B"], correct := 1, explanation := "E" } rfl).2 1 "B"
      rfl |>.2,
   by decide⟩
